import Mathlib

/-!
Verification of the task-ingestion engine of the Dhriti.AI backend
(`app/services/task_ingest.py` and `app/routes/task_ingest.py`).

The Python code is shallowly embedded: JSON-like runtime values become the
inductive type `PyVal`; Python dicts become insertion-ordered association
lists; the mutable `issues` list and the `MappingRuntime` sequence counter
become explicit state threading; `uuid4()` becomes a caller-supplied stream
`gen : Nat → String` of fresh identifiers consumed through a counter; the
SQLAlchemy session becomes a `DbState` with an atomic commit oracle.
Machine floats do not occur in any verified path and are not modelled.
-/

/-- A Python runtime value as it occurs in the ingestion pipeline: JSON
scalars, lists and string-keyed dicts (insertion-ordered). -/
inductive PyVal where
  | none
  | bool (b : Bool)
  | int (n : Int)
  | str (s : String)
  | list (xs : List PyVal)
  | dict (kvs : List (String × PyVal))

/-- An insertion-ordered record (Python dict with string keys). -/
abbrev Record := List (String × PyVal)

/-- Python whitespace test used by `str.strip()` (ASCII fragment). -/
def isPySpace (c : Char) : Bool := c.isWhitespace

/-- Remove trailing characters satisfying `p` (the right half of
Python's `str.strip()`), structurally. -/
def stripRight (p : Char → Bool) : List Char → List Char
  | [] => []
  | c :: rest =>
      match stripRight p rest with
      | [] => if p c then [] else [c]
      | x :: xs => c :: x :: xs

/-- Python `str.strip()` on a character list. -/
def stripChars (l : List Char) : List Char :=
  stripRight isPySpace (l.dropWhile isPySpace)

/-- Python `str.strip()`. -/
def stripStr (s : String) : String := String.mk (stripChars s.data)

/-- Python `str.lower()` (ASCII fragment). -/
def lowerStr (s : String) : String := String.mk (s.data.map Char.toLower)

/-- Python `str.upper()` (ASCII fragment). -/
def upperStr (s : String) : String := String.mk (s.data.map Char.toUpper)

mutual
/-- Python `repr` on a `PyVal` (string escaping inside containers is cosmetic
and not depended on by any theorem). -/
def pyRepr : PyVal → String
  | .none => "None"
  | .bool b => if b then "True" else "False"
  | .int n => toString n
  | .str s => "'" ++ s ++ "'"
  | .list xs => "[" ++ String.intercalate ", " (pyReprList xs) ++ "]"
  | .dict kvs => "\x7b" ++ String.intercalate ", " (pyReprKvs kvs) ++ "\x7d"

/-- `repr` of each element of a Python list. -/
def pyReprList : List PyVal → List String
  | [] => []
  | x :: rest => pyRepr x :: pyReprList rest

/-- `repr` of each key/value pair of a Python dict. -/
def pyReprKvs : List (String × PyVal) → List String
  | [] => []
  | (k, v) :: rest => ("'" ++ k ++ "': " ++ pyRepr v) :: pyReprKvs rest
end

/-- Python `str()` on a `PyVal`: identity on strings, `repr`-based otherwise. -/
def pyStr : PyVal → String
  | .str s => s
  | v => pyRepr v

mutual
/-- `json.dumps(..., ensure_ascii=False)` on a `PyVal` (default separators;
string escaping beyond backslash and quote is cosmetic). -/
def jsonDumps : PyVal → String
  | .none => "null"
  | .bool b => if b then "true" else "false"
  | .int n => toString n
  | .str s => "\"" ++ jsonEscape s.data ++ "\""
  | .list xs => "[" ++ String.intercalate ", " (jsonDumpsList xs) ++ "]"
  | .dict kvs => "\x7b" ++ String.intercalate ", " (jsonDumpsKvs kvs) ++ "\x7d"

/-- `json.dumps` of each element of a list. -/
def jsonDumpsList : List PyVal → List String
  | [] => []
  | x :: rest => jsonDumps x :: jsonDumpsList rest

/-- `json.dumps` of each key/value pair of a dict. -/
def jsonDumpsKvs : List (String × PyVal) → List String
  | [] => []
  | (k, v) :: rest => ("\"" ++ jsonEscape k.data ++ "\": " ++ jsonDumps v) :: jsonDumpsKvs rest

/-- Minimal JSON string escaping (backslash and double quote). -/
def jsonEscape : List Char → String
  | [] => ""
  | c :: rest =>
      (if c = '\\' then "\\\\" else if c = '"' then "\\\"" else String.singleton c)
        ++ jsonEscape rest
end

/-- The membership test `value in (None, "", [])` used by the mapping engine
to decide that a resolved value is missing. -/
def missing_sentinel : PyVal → Bool
  | .none => true
  | .str s => s = ""
  | .list xs => xs.isEmpty
  | _ => false

/-- Modelled from the spec: the spec's `value_is_missing` definition —
"None, empty/whitespace-only string is missing; any non-empty string, list,
dict, or numeric value (including 0/false) is NOT missing". The source has
no such function; the code's own test is `missing_sentinel`. -/
def spec_value_is_missing : PyVal → Bool
  | .none => true
  | .str s => stripStr s = ""
  | _ => false

/-- `INVALID_SHEET_NAME_CHARS = set('[]:*?/\\')`. -/
def INVALID_SHEET_NAME_CHARS : List Char := ['[', ']', ':', '*', '?', '/', '\\']

/-- `MAX_SHEET_NAME_LENGTH = 31`. -/
def MAX_SHEET_NAME_LENGTH : Nat := 31

/-- Replace every invalid sheet-name character by an underscore
(the join/generator expression in `sanitize_sheet_name`). -/
def replaceInvalid (cs : List Char) : List Char :=
  cs.map (fun c => if INVALID_SHEET_NAME_CHARS.contains c then '_' else c)

/-- The replace-truncate-strip tail of `sanitize_sheet_name` (lines 52-57 of
the source), over the chosen candidate and the sanitized fallback. -/
def sanitize_core (candidate1 baseFallback : List Char) : String :=
  let candidate2 := stripChars ((replaceInvalid candidate1).take MAX_SHEET_NAME_LENGTH)
  if candidate2 = [] then
    let c3 := stripChars ((replaceInvalid baseFallback).take MAX_SHEET_NAME_LENGTH)
    if c3 = [] then "Sheet1" else String.mk c3
  else String.mk candidate2

/-- `sanitize_sheet_name(name, fallback="Sheet1")`: normalize sheet names to
satisfy Excel constraints. `Option.none` models Python `None` arguments. -/
def sanitize_sheet_name (name : Option String) (fallback : Option String) : String :=
  let nameStr := name.getD ""
  let fallbackStr :=
    match fallback with
    | Option.none => "Sheet1"
    | Option.some f => if f = "" then "Sheet1" else f
  let candidate0 := stripChars nameStr.data
  let baseFallback0 := stripChars fallbackStr.data
  let baseFallback := if baseFallback0 = [] then "Sheet1".data else baseFallback0
  let candidate1 := if candidate0 = [] then baseFallback else candidate0
  sanitize_core candidate1 baseFallback

/-- Python `int(s)` on a string: strip, optional sign, decimal digits;
otherwise `ValueError`. -/
def pyIntOfString (s : String) : Except String Int :=
  let t := stripChars s.data
  let signDigits : Int × List Char :=
    match t with
    | c :: rest => if c = '-' then (-1, rest) else if c = '+' then (1, rest) else (1, t)
    | [] => (1, t)
  if signDigits.2 ≠ [] ∧ signDigits.2.all Char.isDigit then
    .ok (signDigits.1 * Int.ofNat (signDigits.2.foldl (fun acc c => acc * 10 + (c.toNat - '0'.toNat)) 0))
  else .error ("invalid literal for int() with base 10: " ++ pyRepr (.str s))

/-- `int(float(text))` on a stripped string: decimal forms with an optional
fractional part, truncated toward zero (exponent and special float forms are
outside the value model and fall to the error case, which the caller's
`except` swallows). -/
def pyFloatTruncToInt (s : String) : Except String Int :=
  let t := s.data
  let signDigits : Int × List Char :=
    match t with
    | c :: rest => if c = '-' then (-1, rest) else if c = '+' then (1, rest) else (1, t)
    | [] => (1, t)
  let intPart := signDigits.2.takeWhile Char.isDigit
  let rest := signDigits.2.drop intPart.length
  let ok : Bool :=
    match rest with
    | [] => !intPart.isEmpty
    | c :: frac => c = '.' && frac.all Char.isDigit && (!intPart.isEmpty || !frac.isEmpty)
  if ok then
    .ok (signDigits.1 * Int.ofNat (intPart.foldl (fun acc c => acc * 10 + (c.toNat - '0'.toNat)) 0))
  else .error ("could not convert string to float: " ++ pyRepr (.str s))

/-- `_transform_trim`. -/
def _transform_trim (value : PyVal) (_args : List String) : Except String PyVal :=
  match value with
  | .none => .ok .none
  | v => .ok (.str (stripStr (pyStr v)))

/-- `_transform_lower`. -/
def _transform_lower (value : PyVal) (_args : List String) : Except String PyVal :=
  match value with
  | .none => .ok .none
  | v => .ok (.str (lowerStr (pyStr v)))

/-- `_transform_upper`. -/
def _transform_upper (value : PyVal) (_args : List String) : Except String PyVal :=
  match value with
  | .none => .ok .none
  | v => .ok (.str (upperStr (pyStr v)))

/-- `_transform_to_int(value, default="0")`: extra positional arguments raise
`TypeError` as in Python. -/
def _transform_to_int (value : PyVal) (args : List String) : Except String PyVal :=
  if args.length ≥ 2 then
    .error ("_transform_to_int() takes from 1 to 2 positional arguments but "
      ++ toString (args.length + 1) ++ " were given")
  else
    let dflt := args.head?.getD "0"
    let defaultInt : Except String Int := if dflt = "" then .ok 0 else pyIntOfString dflt
    let viaDefault : Except String PyVal := defaultInt.map (fun n => .int n)
    match value with
    | .none => viaDefault
    | .str s =>
        if s = "" then viaDefault
        else
          let text := stripStr s
          if text = "" then viaDefault
          else
            match pyFloatTruncToInt text with
            | .ok n => .ok (.int n)
            | .error _ => viaDefault
    | .bool b => .ok (.int (if b then 1 else 0))
    | .int n => .ok (.int n)
    | v =>
        let text := stripStr (pyStr v)
        if text = "" then viaDefault
        else
          match pyFloatTruncToInt text with
          | .ok n => .ok (.int n)
          | .error _ => viaDefault

/-- Whether `pat` is an initial segment of `cs`. -/
def isPrefixList : List Char → List Char → Bool
  | [], _ => true
  | _ :: _, [] => false
  | p :: ps, c :: cs => p = c ∧ isPrefixList ps cs

/-- The suffix after the first occurrence of `pat`, if any. -/
def afterSub (pat : List Char) : List Char → Option (List Char)
  | [] => Option.none
  | c :: rest =>
      if isPrefixList pat (c :: rest) then some ((c :: rest).drop pat.length)
      else afterSub pat rest

/-- The suffix after the last occurrence of `c` (Python `rsplit(c, 1)[-1]`). -/
def afterLastChar (c : Char) (cs : List Char) : List Char :=
  (cs.reverse.takeWhile (· ≠ c)).reverse

/-- `urlparse(text).path` restricted to the `scheme://netloc/path?query#fragment`
shape the transform meets: strips fragment and query, then the scheme and
network location when `://` occurs. -/
def urlparse_path (text : String) : String :=
  let noFrag := (text.data.takeWhile (· ≠ '#')).takeWhile (· ≠ '?')
  match afterSub ("://".data) noFrag with
  | some rest => String.mk (rest.dropWhile (· ≠ '/'))
  | Option.none => String.mk noFrag

/-- `_transform_basename`. -/
def _transform_basename (value : PyVal) (_args : List String) : Except String PyVal :=
  match value with
  | .none => .ok .none
  | v =>
      let text := pyStr v
      let parsedPath := urlparse_path text
      let path0 := if parsedPath = "" then text else parsedPath
      let path1 := if path0.data.contains '/' then String.mk (afterLastChar '/' path0.data) else path0
      let path2 := if path1.data.contains '\\' then String.mk (afterLastChar '\\' path1.data) else path1
      .ok (.str (if path2 = "" then text else path2))

/-- `_transform_split(value, delimiter="|")`. -/
def _transform_split (value : PyVal) (args : List String) : Except String PyVal :=
  if args.length ≥ 2 then
    .error ("_transform_split() takes from 1 to 2 positional arguments but "
      ++ toString (args.length + 1) ++ " were given")
  else
    let delimiter := args.head?.getD "|"
    match value with
    | .none => .ok (.list [])
    | .list xs => .ok (.list (xs.map (fun item => .str (pyStr item))))
    | v =>
        let text := pyStr v
        if text = "" then .ok (.list [])
        else .ok (.list ((text.splitOn delimiter).map (fun part => .str (stripStr part))))

/-- `_transform_join(value, delimiter="|")`. -/
def _transform_join (value : PyVal) (args : List String) : Except String PyVal :=
  if args.length ≥ 2 then
    .error ("_transform_join() takes from 1 to 2 positional arguments but "
      ++ toString (args.length + 1) ++ " were given")
  else
    let delimiter := args.head?.getD "|"
    match value with
    | .none => .ok (.str "")
    | .list xs => .ok (.str (String.intercalate delimiter (xs.map pyStr)))
    | v => .ok (.str (pyStr v))

/-- The running state of `_split_args`. -/
structure SplitArgsState where
  args : List String
  buffer : List Char
  quoteChar : Char
  inQuote : Bool

/-- `arg.strip("'\"")`: strip quote characters from both ends. -/
def stripQuoteChars (s : String) : String :=
  String.mk (stripRight (fun c => c = '\'' ∨ c = '"')
    (s.data.dropWhile (fun c => c = '\'' ∨ c = '"')))

/-- One character of the `_split_args` scan. -/
def _split_args_step (st : SplitArgsState) (c : Char) : SplitArgsState :=
  if st.inQuote then
    if c = st.quoteChar then { st with inQuote := false }
    else { st with buffer := st.buffer ++ [c] }
  else if c = '\'' ∨ c = '"' then { st with inQuote := true, quoteChar := c }
  else if c = ',' then
    let arg := stripStr (String.mk st.buffer)
    if arg ≠ "" then { st with args := st.args ++ [stripQuoteChars arg], buffer := [] }
    else { st with buffer := [] }
  else { st with buffer := st.buffer ++ [c] }

/-- `_split_args(source)`: comma-split with quote awareness, arguments
stripped and quote-trimmed, empties dropped. -/
def _split_args (source : String) : List String :=
  let st := source.data.foldl _split_args_step ⟨[], [], ' ', false⟩
  let tail := stripStr (String.mk st.buffer)
  let args := if tail ≠ "" then st.args ++ [stripQuoteChars tail] else st.args
  (args.map stripStr).filter (fun a => a ≠ "")

/-- `_parse_transform(transform)`: `name` or `name(arg1,arg2)` syntax. -/
def _parse_transform (transform : String) : Except String (String × List String) :=
  let text := stripStr transform
  if text = "" then .error "empty transform"
  else if ¬ text.data.contains '(' ∨ ¬ (text.data.getLast? = some ')') then
    .ok (lowerStr text, [])
  else
    let name := String.mk (text.data.takeWhile (· ≠ '('))
    let argsStr := ((text.data.dropWhile (· ≠ '(')).drop 1).dropLast
    .ok (lowerStr (stripStr name), _split_args (String.mk argsStr))

/-- The type of an entry of `_TRANSFORMS`. -/
def TransformFn := PyVal → List String → Except String PyVal

/-- The `_TRANSFORMS` dispatch table (the parenthesised keys are present in
the source but unreachable through `_parse_transform`). -/
def _TRANSFORMS_get (name : String) : Option TransformFn :=
  if name = "trim" then some _transform_trim
  else if name = "lower" then some _transform_lower
  else if name = "upper" then some _transform_upper
  else if name = "to_int" then some _transform_to_int
  else if name = "to_int(0)" then some (fun v _ => _transform_to_int v ["0"])
  else if name = "basename" then some _transform_basename
  else if name = "split" then some _transform_split
  else if name = "split('|')" then some (fun v _ => _transform_split v ["|"])
  else if name = "join" then some _transform_join
  else if name = "join('|')" then some (fun v _ => _transform_join v ["|"])
  else Option.none

/-- `apply_transforms(value, transforms)`: sequential composition; unknown
names and wrapped transform failures become `TransformError` messages. -/
def apply_transforms (value : PyVal) (transforms : List String) : Except String PyVal :=
  match transforms with
  | [] => .ok value
  | t :: rest =>
      match _parse_transform t with
      | .error e => .error e
      | .ok (name, args) =>
          match _TRANSFORMS_get name with
          | Option.none => .error ("unknown transform '" ++ name ++ "'")
          | some fn =>
              match fn value args with
              | .error e => .error e
              | .ok v => apply_transforms v rest

/-- Python `ast` binary operator node classes. -/
inductive BinOpKind where
  | add | sub | mult | div | mod | pow | lshift | rshift
  | bitOr | bitXor | bitAnd | floorDiv | matMult

/-- Python `ast` unary operator node classes. -/
inductive UnaryOpKind where
  | uadd | usub | notOp | invert

/-- Python `ast` comparison operator node classes. -/
inductive CmpOpKind where
  | eq | notEq | lt | ltE | gt | gtE | isOp | isNotOp | isIn | notIn

/-- A parsed Python expression (the output of `ast.parse(text, mode="eval")`,
with the wrapping `Expression` node implicit); host-language parsing is
external to the embedding. -/
inductive PyExpr where
  | constant (v : PyVal)
  | name (id : String)
  | binop (op : BinOpKind) (l r : PyExpr)
  | unaryop (op : UnaryOpKind) (operand : PyExpr)
  | boolop (isAnd : Bool) (values : List PyExpr)
  | compare (left : PyExpr) (ops : List CmpOpKind) (comparators : List PyExpr)
  | call (fn : PyExpr) (args : List PyExpr)
  | attrAccess (value : PyExpr) (attr : String)
  | subscript (value : PyExpr) (idx : PyExpr)
  | sliceNode (lower upper step : Option PyExpr)
  | joinedStr (values : List PyExpr)
  | formattedValue (value : PyExpr)
  | ifExp (test body orelse : PyExpr)
  | listExpr (elts : List PyExpr)
  | tupleExpr (elts : List PyExpr)
  | dictExpr (pairs : List (PyExpr × PyExpr))

/-- An operator/context node as `ast.walk` yields it alongside expressions. -/
inductive OperKind where
  | binK (k : BinOpKind)
  | unK (k : UnaryOpKind)
  | cmpK (k : CmpOpKind)
  | boolK (isAnd : Bool)
  | load

/-- A node of the walk: an expression node or an operator/context node. -/
inductive PyNode where
  | expr (e : PyExpr)
  | oper (k : OperKind)

/-- The Python class name of a binary operator node. -/
def BinOpKind.pyName : BinOpKind → String
  | .add => "Add" | .sub => "Sub" | .mult => "Mult" | .div => "Div" | .mod => "Mod"
  | .pow => "Pow" | .lshift => "LShift" | .rshift => "RShift" | .bitOr => "BitOr"
  | .bitXor => "BitXor" | .bitAnd => "BitAnd" | .floorDiv => "FloorDiv" | .matMult => "MatMult"

/-- The Python class name of a unary operator node. -/
def UnaryOpKind.pyName : UnaryOpKind → String
  | .uadd => "UAdd" | .usub => "USub" | .notOp => "Not" | .invert => "Invert"

/-- The Python class name of a comparison operator node. -/
def CmpOpKind.pyName : CmpOpKind → String
  | .eq => "Eq" | .notEq => "NotEq" | .lt => "Lt" | .ltE => "LtE" | .gt => "Gt"
  | .gtE => "GtE" | .isOp => "Is" | .isNotOp => "IsNot" | .isIn => "In" | .notIn => "NotIn"

/-- The Python class name of an operator/context node. -/
def OperKind.pyName : OperKind → String
  | .binK k => k.pyName
  | .unK k => k.pyName
  | .cmpK k => k.pyName
  | .boolK isAnd => if isAnd then "And" else "Or"
  | .load => "Load"

/-- `ast.iter_child_nodes`, in field order, including operator and context
child nodes exactly as Python yields them. -/
def astChildren : PyNode → List PyNode
  | .oper _ => []
  | .expr e =>
    match e with
    | .constant _ => []
    | .name _ => [.oper .load]
    | .binop op l r => [.expr l, .oper (.binK op), .expr r]
    | .unaryop op v => [.oper (.unK op), .expr v]
    | .boolop isAnd vs => .oper (.boolK isAnd) :: vs.map PyNode.expr
    | .compare l ops rs =>
        .expr l :: (ops.map (fun k => PyNode.oper (.cmpK k)) ++ rs.map PyNode.expr)
    | .call f args => .expr f :: args.map PyNode.expr
    | .attrAccess v _ => [.expr v, .oper .load]
    | .subscript v idx => [.expr v, .expr idx, .oper .load]
    | .sliceNode lo hi st =>
        (match lo with | some x => [PyNode.expr x] | Option.none => [])
          ++ (match hi with | some x => [PyNode.expr x] | Option.none => [])
          ++ (match st with | some x => [PyNode.expr x] | Option.none => [])
    | .joinedStr vs => vs.map PyNode.expr
    | .formattedValue v => [.expr v]
    | .ifExp t b o => [.expr t, .expr b, .expr o]
    | .listExpr elts => elts.map PyNode.expr ++ [.oper .load]
    | .tupleExpr elts => elts.map PyNode.expr ++ [.oper .load]
    | .dictExpr pairs => pairs.map (fun p => PyNode.expr p.1) ++ pairs.map (fun p => PyNode.expr p.2)

mutual
/-- A termination weight strictly dominating the walk's queue growth:
one plus the weights of all child nodes. -/
def exprWeight : PyExpr → Nat
  | .constant _ => 1
  | .name _ => 2
  | .binop _ l r => 1 + (exprWeight l + 1 + exprWeight r)
  | .unaryop _ v => 1 + (1 + exprWeight v)
  | .boolop _ vs => 1 + (1 + weightList vs)
  | .compare l ops rs => 1 + (exprWeight l + ops.length + weightList rs)
  | .call f args => 1 + (exprWeight f + weightList args)
  | .attrAccess v _ => 1 + (exprWeight v + 1)
  | .subscript v idx => 1 + (exprWeight v + exprWeight idx + 1)
  | .sliceNode lo hi st => 1 + (weightOpt lo + weightOpt hi + weightOpt st)
  | .joinedStr vs => 1 + weightList vs
  | .formattedValue v => 1 + exprWeight v
  | .ifExp t b o => 1 + (exprWeight t + exprWeight b + exprWeight o)
  | .listExpr elts => 1 + (weightList elts + 1)
  | .tupleExpr elts => 1 + (weightList elts + 1)
  | .dictExpr pairs => 1 + weightPairs pairs

/-- Sum of weights of a list of expressions. -/
def weightList : List PyExpr → Nat
  | [] => 0
  | x :: rest => exprWeight x + weightList rest

/-- Weight of an optional expression. -/
def weightOpt : Option PyExpr → Nat
  | Option.none => 0
  | some e => exprWeight e

/-- Sum of weights of key/value expression pairs. -/
def weightPairs : List (PyExpr × PyExpr) → Nat
  | [] => 0
  | (a, b) :: rest => exprWeight a + exprWeight b + weightPairs rest
end

/-- Weight of a walk node. -/
def nodeWeight : PyNode → Nat
  | .expr e => exprWeight e
  | .oper _ => 1

/-- Summing `nodeWeight` over wrapped expressions equals `weightList`
(termination bookkeeping for the walk). -/
def weightList_map_sum : ∀ vs : List PyExpr,
    ((vs.map PyNode.expr).map nodeWeight).sum = weightList vs := by
  intro vs
  induction vs with
  | nil => rfl
  | cons x rest ih =>
      simp only [List.map_cons, List.sum_cons, weightList, nodeWeight, ih]

/-- Summing `nodeWeight` over comparison-operator nodes counts them
(termination bookkeeping for the walk). -/
def weightCmps_map_sum : ∀ ops : List CmpOpKind,
    ((ops.map (fun k => PyNode.oper (OperKind.cmpK k))).map nodeWeight).sum = ops.length := by
  intro ops
  induction ops with
  | nil => rfl
  | cons x rest ih =>
      simp only [List.map_cons, List.sum_cons, List.length_cons, nodeWeight, ih]
      omega

/-- Summing `nodeWeight` over a dict's key and value nodes equals
`weightPairs` (termination bookkeeping for the walk). -/
def weightPairs_map_sum : ∀ ps : List (PyExpr × PyExpr),
    ((ps.map (fun p => PyNode.expr p.1)).map nodeWeight).sum
      + ((ps.map (fun p => PyNode.expr p.2)).map nodeWeight).sum = weightPairs ps := by
  intro ps
  induction ps with
  | nil => rfl
  | cons x rest ih =>
      cases x with
      | mk a b =>
          simp only [List.map_cons, List.sum_cons, weightPairs, nodeWeight] at ih ⊢
          omega

/-- The children of a node weigh strictly less than the node (the walk's
queue measure decreases). -/
def childrenWeightBound : ∀ n : PyNode, ((astChildren n).map nodeWeight).sum < nodeWeight n := by
  intro n
  cases n with
  | oper k => simp [astChildren, nodeWeight]
  | expr e =>
      cases e with
      | sliceNode lo hi st =>
          cases lo <;> cases hi <;> cases st <;>
            (simp [astChildren, nodeWeight, exprWeight, weightOpt]; try omega)
      | dictExpr pairs =>
          have h := weightPairs_map_sum pairs
          simp only [astChildren, nodeWeight, exprWeight, List.map_append, List.sum_append]
          omega
      | _ =>
          (simp only [astChildren, nodeWeight, exprWeight, List.map_cons, List.map_nil,
            List.sum_cons, List.sum_nil, List.map_append, List.sum_append,
            weightList_map_sum, weightCmps_map_sum];
           omega)

/-- `ast.walk`: breadth-first traversal via a queue seeded with the root. -/
def bfsWalk : List PyNode → List PyNode
  | [] => []
  | x :: queue => x :: bfsWalk (queue ++ astChildren x)
termination_by l => (l.map nodeWeight).sum
decreasing_by
  simp only [List.map_append, List.sum_append, List.map_cons, List.sum_cons]
  have h := childrenWeightBound x
  omega

/-- All nodes of an expression in `ast.walk` order (the allowed `Expression`
wrapper node is elided; it never violates validation). -/
def astWalk (t : PyExpr) : List PyNode := bfsWalk [PyNode.expr t]

/-- `ALLOWED_NAMES = {"row_index", "excel_row", "seq", "row"}`. -/
def ALLOWED_NAMES : List String := ["row_index", "excel_row", "seq", "row"]

/-- Membership of an operator/context node class in `ALLOWED_AST_NODES`. -/
def allowedOperKind : OperKind → Bool
  | .binK .add => true
  | .binK .sub => true
  | .binK .mult => true
  | .binK .div => true
  | .binK .mod => true
  | .load => true
  | _ => false

/-- The checks `_validate_ast` runs on one walked node, in source order:
class allow-list, then name allow-list, then the attribute ban, then the
`row[<constant>]` subscript shape. -/
def nodeViolation : PyNode → Option String
  | .oper k =>
      if allowedOperKind k then Option.none
      else some ("Expression uses unsupported element '" ++ k.pyName ++ "'")
  | .expr e =>
      match e with
      | .call _ _ => some "Expression uses unsupported element 'Call'"
      | .boolop _ _ => some "Expression uses unsupported element 'BoolOp'"
      | .compare _ _ _ => some "Expression uses unsupported element 'Compare'"
      | .ifExp _ _ _ => some "Expression uses unsupported element 'IfExp'"
      | .listExpr _ => some "Expression uses unsupported element 'List'"
      | .tupleExpr _ => some "Expression uses unsupported element 'Tuple'"
      | .dictExpr _ => some "Expression uses unsupported element 'Dict'"
      | .name id =>
          if ALLOWED_NAMES.contains id then Option.none
          else some ("Name '" ++ id ++ "' is not allowed in expressions")
      | .attrAccess _ _ => some "Attribute access is not allowed in expressions"
      | .subscript v idx =>
          match v with
          | .name vid =>
              if vid = "row" then
                match idx with
                | .constant _ => Option.none
                | _ => some "row[...] subscripts must use constant keys"
              else some "Only row[...] subscripts are allowed"
          | _ => some "Only row[...] subscripts are allowed"
      | _ => Option.none

/-- `_validate_ast(node)`: the first violation in walk order, if any. -/
def _validate_ast (t : PyExpr) : Except String Unit :=
  match (astWalk t).findSome? nodeViolation with
  | some msg => .error msg
  | Option.none => .ok ()

/-- The evaluation context `{"row_index": …, "excel_row": …, "seq": …, "row": …}`
passed as locals to the compiled expression. -/
structure EvalCtx where
  row_index : Int
  excel_row : Int
  seq : Int
  row : List (String × PyVal)

/-- Python truthiness. -/
def pyTruthy : PyVal → Bool
  | .none => false
  | .bool b => b
  | .int n => n ≠ 0
  | .str s => s ≠ ""
  | .list xs => !xs.isEmpty
  | .dict kvs => !kvs.isEmpty

/-- Python type name for error messages. -/
def pyTypeName : PyVal → String
  | .none => "NoneType"
  | .bool _ => "bool"
  | .int _ => "int"
  | .str _ => "str"
  | .list _ => "list"
  | .dict _ => "dict"

/-- A value usable as a Python integer operand (`bool` coerces). -/
def asArithInt : PyVal → Option Int
  | .bool b => some (if b then 1 else 0)
  | .int n => some n
  | _ => Option.none

/-- Binary operator semantics on the modelled value universe. True division
always produces a machine float in Python and is outside the value model;
the remaining operator kinds are rejected by `_validate_ast` before any
evaluation and cannot be reached through `_safe_eval_expression`. -/
def evalBinOp (k : BinOpKind) (a b : PyVal) : Except String PyVal :=
  match k with
  | .add =>
      match asArithInt a, asArithInt b with
      | some x, some y => .ok (.int (x + y))
      | _, _ =>
          match a, b with
          | .str s, .str t => .ok (.str (s ++ t))
          | .list xs, .list ys => .ok (.list (xs ++ ys))
          | _, _ => .error ("unsupported operand type(s) for +: '" ++ pyTypeName a
              ++ "' and '" ++ pyTypeName b ++ "'")
  | .sub =>
      match asArithInt a, asArithInt b with
      | some x, some y => .ok (.int (x - y))
      | _, _ => .error ("unsupported operand type(s) for -: '" ++ pyTypeName a
          ++ "' and '" ++ pyTypeName b ++ "'")
  | .mult =>
      match asArithInt a, asArithInt b with
      | some x, some y => .ok (.int (x * y))
      | _, _ =>
          match a, b with
          | .str s, _ =>
              match asArithInt b with
              | some n => .ok (.str (String.join (List.replicate n.toNat s)))
              | Option.none => .error ("can't multiply sequence by non-int of type '"
                  ++ pyTypeName b ++ "'")
          | _, .str s =>
              match asArithInt a with
              | some n => .ok (.str (String.join (List.replicate n.toNat s)))
              | Option.none => .error ("can't multiply sequence by non-int of type '"
                  ++ pyTypeName a ++ "'")
          | .list xs, _ =>
              match asArithInt b with
              | some n => .ok (.list (List.flatten (List.replicate n.toNat xs)))
              | Option.none => .error ("can't multiply sequence by non-int of type '"
                  ++ pyTypeName b ++ "'")
          | _, _ => .error ("unsupported operand type(s) for *: '" ++ pyTypeName a
              ++ "' and '" ++ pyTypeName b ++ "'")
  | .div => .error "true division produces a float, which is outside the value model"
  | .mod =>
      match asArithInt a, asArithInt b with
      | some x, some y =>
          if y = 0 then .error "integer division or modulo by zero"
          else .ok (.int (Int.fmod x y))
      | _, _ => .error ("unsupported operand type(s) for %: '" ++ pyTypeName a
          ++ "' and '" ++ pyTypeName b ++ "'")
  | _ => .error ("operator '" ++ k.pyName ++ "' is rejected by validation")

/-- Unary operator semantics (every unary operator node class is rejected by
`_validate_ast`, so these are unreachable through `_safe_eval_expression`). -/
def evalUnaryOp (k : UnaryOpKind) (v : PyVal) : Except String PyVal :=
  match k with
  | .usub =>
      match asArithInt v with
      | some x => .ok (.int (-x))
      | Option.none => .error ("bad operand type for unary -: '" ++ pyTypeName v ++ "'")
  | .uadd =>
      match asArithInt v with
      | some x => .ok (.int x)
      | Option.none => .error ("bad operand type for unary +: '" ++ pyTypeName v ++ "'")
  | .notOp => .ok (.bool (!pyTruthy v))
  | .invert =>
      match asArithInt v with
      | some x => .ok (.int (-(x + 1)))
      | Option.none => .error ("bad operand type for unary ~: '" ++ pyTypeName v ++ "'")

/-- Subscript semantics: dict key lookup (`KeyError` carries the key's repr),
list and string indexing with negative wrap-around. -/
def evalSubscript (v idx : PyVal) : Except String PyVal :=
  match v with
  | .dict kvs =>
      match idx with
      | .str k =>
          match kvs.lookup k with
          | some x => .ok x
          | Option.none => .error (pyRepr (.str k))
      | other => .error (pyRepr other)
  | .list xs =>
      match asArithInt idx with
      | some n =>
          let i := if n < 0 then n + Int.ofNat xs.length else n
          if h : 0 ≤ i ∧ i.toNat < xs.length then .ok (xs.get ⟨i.toNat, h.2⟩)
          else .error "list index out of range"
      | Option.none => .error ("list indices must be integers or slices, not "
          ++ pyTypeName idx)
  | .str s =>
      match asArithInt idx with
      | some n =>
          let i := if n < 0 then n + Int.ofNat s.data.length else n
          if h : 0 ≤ i ∧ i.toNat < s.data.length then
            .ok (.str (String.singleton (s.data.get ⟨i.toNat, h.2⟩)))
          else .error "string index out of range"
      | Option.none => .error ("string indices must be integers, not "
          ++ pyTypeName idx)
  | _ => .error ("'" ++ pyTypeName v ++ "' object is not subscriptable")

mutual
/-- Evaluation of a validated expression against the context only: the
compiled code runs with `{"__builtins__": {}}` as globals, so name lookup
reaches nothing but the four context bindings. Node kinds rejected by
`_validate_ast` (calls, attributes, comparisons, displays, slices) cannot
be reached through `_safe_eval_expression`. -/
def evalExpr (ctx : EvalCtx) : PyExpr → Except String PyVal
  | .constant v => .ok v
  | .name id =>
      if id = "row_index" then .ok (.int ctx.row_index)
      else if id = "excel_row" then .ok (.int ctx.excel_row)
      else if id = "seq" then .ok (.int ctx.seq)
      else if id = "row" then .ok (.dict ctx.row)
      else .error ("name '" ++ id ++ "' is not defined")
  | .binop k l r =>
      match evalExpr ctx l with
      | .error e => .error e
      | .ok a =>
          match evalExpr ctx r with
          | .error e => .error e
          | .ok b => evalBinOp k a b
  | .unaryop k v =>
      match evalExpr ctx v with
      | .error e => .error e
      | .ok x => evalUnaryOp k x
  | .boolop isAnd vs => evalBoolChain ctx isAnd vs
  | .compare _ _ _ => .error "comparison is rejected by validation"
  | .call f args =>
      match evalExpr ctx f with
      | .error e => .error e
      | .ok fv =>
          match evalExprList ctx args with
          | .error e => .error e
          | .ok _ => .error ("'" ++ pyTypeName fv ++ "' object is not callable")
  | .attrAccess v attr =>
      match evalExpr ctx v with
      | .error e => .error e
      | .ok xv => .error ("'" ++ pyTypeName xv ++ "' object has no attribute '"
          ++ attr ++ "'")
  | .subscript v idx =>
      match evalExpr ctx v with
      | .error e => .error e
      | .ok xv =>
          match evalExpr ctx idx with
          | .error e => .error e
          | .ok iv => evalSubscript xv iv
  | .sliceNode _ _ _ => .error "slice objects are outside the value model"
  | .joinedStr vs =>
      match evalExprList ctx vs with
      | .error e => .error e
      | .ok results => .ok (.str (String.join (results.map pyStr)))
  | .formattedValue v =>
      match evalExpr ctx v with
      | .error e => .error e
      | .ok x => .ok (.str (pyStr x))
  | .ifExp t b o =>
      match evalExpr ctx t with
      | .error e => .error e
      | .ok tv => if pyTruthy tv then evalExpr ctx b else evalExpr ctx o
  | .listExpr elts =>
      match evalExprList ctx elts with
      | .error e => .error e
      | .ok xs => .ok (.list xs)
  | .tupleExpr elts =>
      match evalExprList ctx elts with
      | .error e => .error e
      | .ok xs => .ok (.list xs)
  | .dictExpr pairs =>
      match evalExprPairs ctx pairs with
      | .error e => .error e
      | .ok kvs => .ok (.dict kvs)

/-- Left-to-right evaluation of a list of expressions. -/
def evalExprList (ctx : EvalCtx) : List PyExpr → Except String (List PyVal)
  | [] => .ok []
  | x :: rest =>
      match evalExpr ctx x with
      | .error e => .error e
      | .ok v =>
          match evalExprList ctx rest with
          | .error e => .error e
          | .ok vs => .ok (v :: vs)

/-- Short-circuit `and`/`or` over the operand list, returning the last
operand evaluated. -/
def evalBoolChain (ctx : EvalCtx) (isAnd : Bool) : List PyExpr → Except String PyVal
  | [] => .ok .none
  | [x] => evalExpr ctx x
  | x :: rest =>
      match evalExpr ctx x with
      | .error e => .error e
      | .ok v =>
          if pyTruthy v = isAnd then evalBoolChain ctx isAnd rest else .ok v

/-- Evaluation of dict-display pairs; only string keys fit the modelled
dict type. -/
def evalExprPairs (ctx : EvalCtx) : List (PyExpr × PyExpr) → Except String (List (String × PyVal))
  | [] => .ok []
  | (ke, ve) :: rest =>
      match evalExpr ctx ke with
      | .error e => .error e
      | .ok kv =>
          match kv with
          | .str k =>
              match evalExpr ctx ve with
              | .error e => .error e
              | .ok v =>
                  match evalExprPairs ctx rest with
                  | .error e => .error e
                  | .ok kvs => .ok ((k, v) :: kvs)
          | other => .error ("non-string dict key " ++ pyRepr other
              ++ " is outside the value model")
end

/-- `_safe_eval_expression(expression, context)`: validate the tree, then
evaluate it with empty builtins; validation failures surface before any
evaluation. -/
def _safe_eval_expression (t : PyExpr) (ctx : EvalCtx) : Except String PyVal :=
  match _validate_ast t with
  | .error e => .error e
  | .ok _ => evalExpr ctx t

/-- `dict.get(key)`: `None` when absent. -/
def pyGet (row : Record) (key : String) : PyVal :=
  (row.lookup key).getD .none

/-- `d[key] = value` on an insertion-ordered dict: update in place when the
key exists, append otherwise. -/
def dictSet : Record → String → PyVal → Record
  | [], key, v => [(key, v)]
  | (k, v0) :: rest, key, v =>
      if k = key then (k, v) :: rest else (k, v0) :: dictSet rest key v

/-- `GenerateCoreConfig` / `ColumnCoreConfig` for the task_id core field
(pydantic's discriminated union): `expression` holds the parsed tree, or
`Option.none` when the text is empty or does not parse. -/
inductive CoreFieldConfig where
  | generate (strategy : String) (expression : Option PyExpr)
  | column (name : String) (transforms : List String)

/-- `ColumnCoreConfig` for task_name / file_name. -/
structure ColumnCoreConfig where
  name : String
  transforms : List String

/-- `CoreMapping`. -/
structure CoreMapping where
  task_id : CoreFieldConfig
  task_name : ColumnCoreConfig
  file_name : ColumnCoreConfig

/-- `PayloadColumnSelection` / `PayloadConstantSelection`. -/
inductive PayloadSelection where
  | column (column : String) (key : String) (transforms : List String)
  | constant (key : String) (value : PyVal)

/-- `MappingConfig`. -/
structure MappingConfig where
  sheet : String
  core : CoreMapping
  payload_selected : List PayloadSelection

/-- `MappingRuntime`: the per-batch sequence counter. -/
structure MappingRuntime where
  sequence : Nat

/-- `MappingRuntime.next_seq()`: increment, then return the new value. -/
def MappingRuntime.next_seq (r : MappingRuntime) : Nat × MappingRuntime :=
  (r.sequence + 1, ⟨r.sequence + 1⟩)

/-- The consumption state of the `uuid4()` stream. -/
structure RandState where
  counter : Nat

/-- `str(uuid4())`: the next identifier of the caller-supplied stream. -/
def freshUuid (gen : Nat → String) (r : RandState) : String × RandState :=
  (gen r.counter, ⟨r.counter + 1⟩)

/-- `PreviewRow`: one resolved task candidate. -/
structure PreviewRow where
  row : Int
  task_id : String
  task_name : String
  file_name : String
  payload : Record

/-- `PreviewIssue`. -/
structure PreviewIssue where
  row : Int
  message : String

/-- `_resolve_task_id(row, row_number, config, runtime, issues)`. -/
def _resolve_task_id (gen : Nat → String) (row : Record) (row_number : Int)
    (config : CoreFieldConfig) (runtime : MappingRuntime) (rand : RandState) :
    String × List String × MappingRuntime × RandState :=
  match config with
  | .generate strategy expression =>
      if strategy = "uuid_v4" then
        let (u, rand2) := freshUuid gen rand
        (u, [], runtime, rand2)
      else if strategy = "seq_per_batch" then
        let (n, runtime2) := runtime.next_seq
        (toString n, [], runtime2, rand)
      else if strategy = "expr" then
        let (seqValue, runtime2) := runtime.next_seq
        match expression with
        | Option.none =>
            let (u, rand2) := freshUuid gen rand
            (u, ["task_id expr failed → invalid syntax"], runtime2, rand2)
        | some t =>
            let ctx : EvalCtx := ⟨row_number - 2, row_number, Int.ofNat seqValue, row⟩
            match _safe_eval_expression t ctx with
            | .error e =>
                let (u, rand2) := freshUuid gen rand
                (u, ["task_id expr failed → " ++ e], runtime2, rand2)
            | .ok v =>
                if missing_sentinel v then
                  let (u, rand2) := freshUuid gen rand
                  (u, ["task_id expr empty → generated uuid"], runtime2, rand2)
                else (pyStr v, [], runtime2, rand)
      else
        let (u, rand2) := freshUuid gen rand
        (u, ["Unknown generation strategy: " ++ strategy], runtime, rand2)
  | .column name transforms =>
      match apply_transforms (pyGet row name) transforms with
      | .error e =>
          let (u, rand2) := freshUuid gen rand
          (u, ["task_id transform error → " ++ e, "task_id empty → generated uuid"], runtime, rand2)
      | .ok v =>
          if missing_sentinel v then
            let (u, rand2) := freshUuid gen rand
            (u, ["task_id empty → generated uuid"], runtime, rand2)
          else (pyStr v, [], runtime, rand)

/-- `_resolve_column_value(row, row_number, config, default, issues)`
(`row_number` is accepted and unused exactly as in the source). -/
def _resolve_column_value (row : Record) (_row_number : Int)
    (config : ColumnCoreConfig) (dflt : String) : String × List String :=
  match apply_transforms (pyGet row config.name) config.transforms with
  | .error e =>
      (dflt, [config.name ++ " transform error → " ++ e,
              config.name ++ " empty → using default"])
  | .ok v =>
      if missing_sentinel v then (dflt, [config.name ++ " empty → using default"])
      else (pyStr v, [])

/-- `_build_payload(row, selections, issues)`: column selections are omitted
when missing or failing, constant selections always set their value. -/
def _build_payload (row : Record) : List PayloadSelection → Record × List String
  | [] => ([], [])
  | sel :: rest =>
      match sel with
      | .column column key transforms =>
          match apply_transforms (pyGet row column) transforms with
          | .error e =>
              let (payload, issues) := _build_payload row rest
              (payload, (column ++ " transform error → " ++ e) :: issues)
          | .ok v =>
              if missing_sentinel v then _build_payload row rest
              else
                let (payload, issues) := _build_payload row rest
                (dictSet payload key v, issues)
      | .constant key v =>
          let (payload, issues) := _build_payload row rest
          (dictSet payload key v, issues)

/-- `process_row(row, row_number, mapping, runtime)`: resolve the three core
fields and the payload, accumulating issues in source order. -/
def process_row (gen : Nat → String) (row : Record) (row_number : Int)
    (mapping : MappingConfig) (runtime : MappingRuntime) (rand : RandState) :
    PreviewRow × List String × MappingRuntime × RandState :=
  let (task_id, iss1, runtime2, rand2) :=
    _resolve_task_id gen row row_number mapping.core.task_id runtime rand
  let (task_name, iss2) :=
    _resolve_column_value row row_number mapping.core.task_name "Untitled"
  let (file_name, iss3) :=
    _resolve_column_value row row_number mapping.core.file_name
      ("row_" ++ toString (row_number - 1) ++ ".dat")
  let (payload, iss4) := _build_payload row mapping.payload_selected
  (⟨row_number, task_id, task_name, file_name, payload⟩,
   iss1 ++ iss2 ++ iss3 ++ iss4, runtime2, rand2)

/-- `_row_is_empty(values)`: `None` and blank strings count as empty. -/
def _row_is_empty (values : List PyVal) : Bool :=
  values.all fun v =>
    match v with
    | .none => true
    | .str s => stripStr s = ""
    | _ => false

/-- The first-seen union of keys over a row set (the columns loop of
`prepare_dataset_rows`). -/
def collectColumns (rows : List Record) : List String :=
  rows.foldl (fun acc record =>
    record.foldl (fun acc2 kv =>
      if acc2.contains kv.1 then acc2 else acc2 ++ [kv.1]) acc) []

/-- The enumeration loop of `prepare_dataset_rows`: 1-based `index`, empty
rows skipped, `excel_row_number = index + 1`, rows kept up to `limit`. -/
def prepareRowsLoop (columns : List String) (limit : Nat) :
    List Record → Nat → List (Int × Record) → Nat → List (Int × Record) × Nat
  | [], _, prepared, total => (prepared, total)
  | raw :: rest, index, prepared, total =>
      let normalized : Record := columns.map (fun c => (c, pyGet raw c))
      if _row_is_empty (normalized.map (fun kv => kv.2)) then
        prepareRowsLoop columns limit rest (index + 1) prepared total
      else
        let prepared2 :=
          if prepared.length < limit then prepared ++ [(Int.ofNat (index + 1), normalized)]
          else prepared
        prepareRowsLoop columns limit rest (index + 1) prepared2 (total + 1)

/-- `prepare_dataset_rows(rows, limit)` →
`(columns, [(excel_row_number, record)], total_rows)`. -/
def prepare_dataset_rows (rows : List Record) (limit : Nat) :
    List String × List (Int × Record) × Nat :=
  match rows with
  | [] => ([], [], 0)
  | _ =>
      let columns := collectColumns rows
      let (prepared, total) := prepareRowsLoop columns limit rows 1 [] 0
      (columns, prepared, total)

/-- Whether a value is a dict or a list (`isinstance(item, (dict, list))`). -/
def isContainer : PyVal → Bool
  | .dict _ => true
  | .list _ => true
  | _ => false

mutual
/-- `_flatten_recursive(obj, prefix, out)`: dotted keys for dicts, joined or
JSON-serialised lists, leaves stored directly. -/
def _flatten_recursive : PyVal → String → Record → Record
  | .dict kvs, pre, out => flattenKvs kvs pre out
  | .list xs, pre, out =>
      let key := if pre = "" then "[]" else pre
      if xs.isEmpty then dictSet out key (.str "")
      else if xs.all (fun item => !isContainer item) then
        dictSet out key (.str (String.intercalate "|" (xs.map pyStr)))
      else dictSet out key (.str (jsonDumps (.list xs)))
  | v, pre, out => dictSet out (if pre = "" then "value" else pre) v

/-- The dict iteration of `_flatten_recursive`. -/
def flattenKvs : List (String × PyVal) → String → Record → Record
  | [], _, out => out
  | (k, v) :: rest, pre, out =>
      flattenKvs rest pre (_flatten_recursive v (if pre = "" then k else pre ++ "." ++ k) out)
end

/-- `flatten_record(obj)`. -/
def flatten_record (obj : PyVal) : Record :=
  _flatten_recursive obj "" []

/-- `_ensure_records_list(value)`: non-dict items are wrapped as
`{"value": item}`. -/
def _ensure_records_list (xs : List PyVal) : List Record :=
  xs.map fun item =>
    match item with
    | .dict kvs => kvs
    | other => [("value", other)]

/-- Python `max(candidates, key=len)`: the first candidate of maximal
length (later equal lengths do not replace it). -/
def maxByLen (c : String × List Record) (cs : List (String × List Record)) :
    String × List Record :=
  cs.foldl (fun best x => if x.2.length > best.2.length then x else best) c

/-- `_auto_detect_records(data)`: a list root is the record list; a dict
root contributes each non-empty top-level list value's dict items as a
candidate and the longest candidate wins; otherwise one wrapped record. -/
def _auto_detect_records (data : PyVal) : List Record :=
  match data with
  | .list xs => _ensure_records_list xs
  | .dict kvs =>
      let candidates := kvs.filterMap fun kv =>
        match kv.2 with
        | .list ys =>
            if ys.isEmpty then Option.none
            else
              let dictLike := ys.filterMap fun item =>
                match item with
                | .dict k => some k
                | _ => Option.none
              if dictLike.isEmpty then Option.none else some (kv.1, dictLike)
        | _ => Option.none
      match candidates with
      | [] => [kvs]
      | c :: cs => (maxByLen c cs).2
  | other => [[("value", other)]]

/-- The preview loop of `preview_import`: one `process_row` per prepared row
with a fresh runtime, collecting candidates and row-tagged issues in order.
Every `try` around `process_row` is dead in the model because the mapping
engine catches every `TransformError` per field. -/
def preview_process_rows (gen : Nat → String) (mapping : MappingConfig) :
    MappingRuntime → RandState → List (Int × Record) → List PreviewRow × List PreviewIssue
  | _, _, [] => ([], [])
  | runtime, rand, (row_number, record) :: rest =>
      let (pr, rowIssues, runtime2, rand2) :=
        process_row gen record row_number mapping runtime rand
      let (prs, issues) := preview_process_rows gen mapping runtime2 rand2 rest
      (pr :: prs, rowIssues.map (fun m => PreviewIssue.mk row_number m) ++ issues)

/-- `preview_import`'s row-processing phase over already-prepared rows. -/
def preview_import_rows (gen : Nat → String) (prepared : List (Int × Record))
    (mapping : MappingConfig) : List PreviewRow × List PreviewIssue :=
  preview_process_rows gen mapping ⟨0⟩ ⟨0⟩ prepared

/-- The in-batch duplicate issue message of `confirm_import`. -/
def dupMsg (task_id : String) : String :=
  "Duplicate task_id '" ++ task_id ++ "' in upload; skipped."

/-- The already-persisted conflict issue message of `confirm_import`. -/
def existsMsg (task_id : String) : String :=
  "task_id '" ++ task_id ++ "' already exists for this project; skipped."

/-- A persisted `ProjectTask` row. -/
structure TaskRow where
  project_id : Int
  task_id : String
  task_name : String
  file_name : String
  status : String
  payload : Record

/-- The persisted store visible to one confirm: `ProjectTask` rows and
`ProjectImportFile` rows. -/
structure DbState where
  tasks : List TaskRow
  importFiles : List (Int × String)

/-- An `HTTPException`. -/
structure HttpError where
  statusCode : Nat
  detail : String

/-- `ConfirmResponse`. -/
structure ConfirmOutcome where
  inserted : Nat
  skipped : Nat
  errors : List PreviewIssue

/-- The accumulator of the first loop of `confirm_import`. -/
structure ConfirmState where
  pending : List (PreviewRow × List String)
  issues : List PreviewIssue
  seen : List (String × Int)
  skipped : Nat
  runtime : MappingRuntime
  rand : RandState

/-- One iteration of the first loop of `confirm_import`: process the row,
then either record an in-batch duplicate issue (at the current row number)
or keep the candidate and remember the first occurrence. -/
def confirm_step (gen : Nat → String) (mapping : MappingConfig)
    (st : ConfirmState) (entry : Int × Record) : ConfirmState :=
  let (pr, rowIssues, runtime2, rand2) :=
    process_row gen entry.2 entry.1 mapping st.runtime st.rand
  if (st.seen.lookup pr.task_id).isSome then
    { st with
      issues := st.issues ++ [⟨entry.1, dupMsg pr.task_id⟩],
      skipped := st.skipped + 1,
      runtime := runtime2, rand := rand2 }
  else
    { st with
      seen := st.seen ++ [(pr.task_id, entry.1)],
      issues := st.issues ++ rowIssues.map (fun m => PreviewIssue.mk entry.1 m),
      pending := st.pending ++ [(pr, rowIssues)],
      runtime := runtime2, rand := rand2 }

/-- The first loop of `confirm_import` over the row source. -/
def confirm_loop (gen : Nat → String) (mapping : MappingConfig)
    (st : ConfirmState) (rows : List (Int × Record)) : ConfirmState :=
  rows.foldl (confirm_step gen mapping) st

/-- `_find_conflicts(db, project_id, task_ids)`: the persisted task_ids of
the project among `task_ids` (the source's 500-wide query chunking returns
the same membership set, which `confirm_import` immediately wraps in
`set(...)`). -/
def _find_conflicts (dbTasks : List TaskRow) (project_id : Int)
    (task_ids : List String) : List String :=
  task_ids.filter fun i =>
    dbTasks.any fun t => t.project_id = project_id ∧ t.task_id = i

/-- The conflict-filter loop of `confirm_import`: rows whose task_id is
already persisted are dropped with an issue recorded at the id's first
in-batch row number (`seen_ids.get(task_id, 0)`). Returns the new issues,
the extra skip count and the surviving candidates. -/
def conflict_filter (seen : List (String × Int)) (dups : List String) :
    List (PreviewRow × List String) → List PreviewIssue × Nat × List (PreviewRow × List String)
  | [] => ([], 0, [])
  | p :: rest =>
      let (issues, skipped, kept) := conflict_filter seen dups rest
      if dups.contains p.1.task_id then
        (⟨(seen.lookup p.1.task_id).getD 0, existsMsg p.1.task_id⟩ :: issues,
         skipped + 1, kept)
      else (issues, skipped, p :: kept)

/-- `_is_json_serializable(payload)`: every modelled value serialises; the
source check guards host-language values outside this model. -/
def _is_json_serializable (_payload : Record) : Bool := true

/-- The serialisability scan of `confirm_import`: flagged rows get an issue
and a skip count but — exactly as in the source — are *not* removed from
the pending list. -/
def serializability_scan (pending : List (PreviewRow × List String)) :
    List PreviewIssue × Nat :=
  let flagged := pending.filter fun p => !_is_json_serializable p.1.payload
  (flagged.map fun p =>
      PreviewIssue.mk p.1.row
        ("Payload for task_id '" ++ p.1.task_id ++ "' is not JSON serializable; skipped."),
   flagged.length)

/-- The `ProjectTask` row built for one surviving candidate. -/
def toProjectTask (project_id : Int) (p : PreviewRow) : TaskRow :=
  { project_id := project_id,
    task_id := p.task_id,
    task_name := if p.task_name = "" then "Untitled" else p.task_name,
    file_name := if p.file_name = "" then "row_" ++ toString (p.row - 1) ++ ".dat"
                 else p.file_name,
    status := "NEW",
    payload := p.payload }

/-- `confirm_import` over an already-prepared row source for one project.
`artifact` models the metadata/file-relocation block (`.ok stored_filename`,
or `.error detail` for the 500 paths); `commitResult` models the atomic
`db.commit()` of the import-file record plus all task rows: `Option.none`
commits everything, `some orig` is an `IntegrityError` that rolls the whole
transaction back. The returned `DbState` is the store after the request. -/
def confirm_import (gen : Nat → String) (project_id : Int)
    (rows : List (Int × Record)) (mapping : MappingConfig) (db : DbState)
    (artifact : Except String String) (commitResult : Option String) :
    Except HttpError ConfirmOutcome × DbState :=
  let st := confirm_loop gen mapping ⟨[], [], [], 0, ⟨0⟩, ⟨0⟩⟩ rows
  if st.pending.isEmpty then (.ok ⟨0, st.skipped, st.issues⟩, db)
  else
    let dups := _find_conflicts db.tasks project_id (st.seen.map (fun kv => kv.1))
    let (confIssues, confSkipped, pending2) := conflict_filter st.seen dups st.pending
    let issues2 := st.issues ++ confIssues
    let skipped2 := st.skipped + confSkipped
    let (serIssues, serSkipped) := serializability_scan pending2
    let issues3 := issues2 ++ serIssues
    let skipped3 := skipped2 + serSkipped
    if pending2.isEmpty then (.ok ⟨0, skipped3, issues3⟩, db)
    else
      match artifact with
      | .error detail => (.error ⟨500, detail⟩, db)
      | .ok stored =>
          let toInsert := pending2.map fun p => toProjectTask project_id p.1
          match commitResult with
          | Option.none =>
              (.ok ⟨toInsert.length, skipped3, issues3⟩,
               { tasks := db.tasks ++ toInsert,
                 importFiles := db.importFiles ++ [(project_id, stored)] })
          | some orig =>
              (.error ⟨409, "Database constraint error while inserting tasks: " ++ orig⟩, db)

/-- The candidates of one confirm that survive both duplicate-detection
layers (the batch loop's in-batch filter and the persisted-conflict
filter): exactly the list `confirm_import` hands to the insert stage. -/
def confirm_surviving (gen : Nat → String) (project_id : Int)
    (rows : List (Int × Record)) (mapping : MappingConfig) (db : DbState) :
    List (PreviewRow × List String) :=
  let st := confirm_loop gen mapping ⟨[], [], [], 0, ⟨0⟩, ⟨0⟩⟩ rows
  (conflict_filter st.seen
    (_find_conflicts db.tasks project_id (st.seen.map (fun kv => kv.1))) st.pending).2.2

/-- Whether a column core field resolves to a missing value for a row: the
transform chain fails (the engine then treats the value as `None`) or the
transformed value hits the `(None, "", [])` sentinel test. -/
def column_value_missing (row : Record) (config : ColumnCoreConfig) : Bool :=
  match apply_transforms (pyGet row config.name) config.transforms with
  | .error _ => true
  | .ok v => missing_sentinel v

/-- The node shapes named by the safety contract of the expression
evaluator: a call, an attribute access, a name outside `ALLOWED_NAMES`, or
a subscript that is not `row[<constant>]`. -/
def claim_flagged : PyNode → Bool
  | .expr e =>
      match e with
      | .call _ _ => true
      | .attrAccess _ _ => true
      | .name id => !ALLOWED_NAMES.contains id
      | .subscript v idx =>
          !(match v with
            | .name vid => vid = "row" &&
                (match idx with | .constant _ => true | _ => false)
            | _ => false)
      | _ => false
  | .oper _ => false

theorem string_ne_empty_of_data {s : String} (h : s.data ≠ []) : s ≠ "" := by
  intro he
  exact h (by simp [he])

theorem toDigitsCore_length_ge (b : Nat) :
    ∀ (f n : Nat) (ds : List Char), ds.length + 1 ≤ (Nat.toDigitsCore b (f+1) n ds).length := by
  intro f
  induction f with
  | zero =>
      intro n ds
      simp only [Nat.toDigitsCore]
      split <;> simp
  | succ f ih =>
      intro n ds
      have h := ih (n / b) (Nat.digitChar (n % b) :: ds)
      simp only [Nat.toDigitsCore] at h ⊢
      split
      · simp
      · simp only [List.length_cons] at h ⊢
        omega

theorem nat_repr_ne_empty (n : Nat) : Nat.repr n ≠ "" := by
  have h := toDigitsCore_length_ge 10 n n []
  intro he
  have hd : (Nat.repr n).data = [] := by simp [he]
  have h2 : Nat.repr n = (Nat.toDigits 10 n).asString := rfl
  rw [h2] at hd
  have h3 : (Nat.toDigits 10 n).length = 0 := by
    have := congrArg List.length hd
    simpa using this
  simp only [Nat.toDigits] at h3
  omega

theorem int_toString_ne_empty (n : Int) : toString n ≠ "" := by
  cases n with
  | ofNat m => exact nat_repr_ne_empty m
  | negSucc m =>
      apply string_ne_empty_of_data
      have : (toString (Int.negSucc m)) = "-" ++ Nat.repr (m + 1) := rfl
      rw [this, String.data_append]
      simp

theorem append_data_head {p : String} (s : String) {c : Char}
    (h : p.data.head? = some c) : (p ++ s).data.head? = some c := by
  rw [String.data_append, List.head?_append, h]
  rfl

theorem append_data_getLast {s : String} (p : String) {c : Char}
    (h : s.data.getLast? = some c) : (p ++ s).data.getLast? = some c := by
  rw [String.data_append, List.getLast?_append, h]
  rfl

theorem pyStr_eq_empty : ∀ {v : PyVal}, pyStr v = "" → v = PyVal.str "" := by
  intro v h
  cases v with
  | str s => simpa [pyStr] using h
  | none => exact absurd h (by decide)
  | bool b => cases b <;> exact absurd h (by simp [pyStr, pyRepr])
  | int n => exact absurd h (int_toString_ne_empty n)
  | list xs =>
      exfalso
      have hd := congrArg String.data h
      rw [show pyStr (PyVal.list xs) = "[" ++ (String.intercalate ", " (pyReprList xs) ++ "]") by
        simp [pyStr, pyRepr, String.append_assoc]] at hd
      rw [String.data_append] at hd
      simp at hd
  | dict kvs =>
      exfalso
      have hd := congrArg String.data h
      rw [show pyStr (PyVal.dict kvs) = "\x7b" ++ (String.intercalate ", " (pyReprKvs kvs) ++ "\x7d") by
        simp [pyStr, pyRepr, String.append_assoc]] at hd
      rw [String.data_append] at hd
      simp at hd

theorem not_missing_pyStr_ne_empty {v : PyVal} (h : missing_sentinel v = false) :
    pyStr v ≠ "" := by
  intro he
  have := pyStr_eq_empty he
  subst this
  simp [missing_sentinel] at h

theorem pyIntOfString_error_last {s e : String} (h : pyIntOfString s = .error e) :
    e.data.getLast? = some '\'' := by
  simp only [pyIntOfString] at h
  split at h
  · exact absurd h (by simp)
  · simp only [Except.error.injEq] at h
    subst h
    apply append_data_getLast
    show ((("'" : String) ++ s) ++ "'").data.getLast? = some '\''
    exact append_data_getLast _ (by decide)

theorem transform_trim_no_error (v : PyVal) (args : List String) (e : String) :
    _transform_trim v args ≠ .error e := by
  cases v <;> simp [_transform_trim]

theorem transform_lower_no_error (v : PyVal) (args : List String) (e : String) :
    _transform_lower v args ≠ .error e := by
  cases v <;> simp [_transform_lower]

theorem transform_upper_no_error (v : PyVal) (args : List String) (e : String) :
    _transform_upper v args ≠ .error e := by
  cases v <;> simp [_transform_upper]

theorem transform_basename_no_error (v : PyVal) (args : List String) (e : String) :
    _transform_basename v args ≠ .error e := by
  cases v <;> simp [_transform_basename]

theorem to_int_default_error_shape {dflt : String} {e : String}
    (h : (if dflt = "" then (Except.ok 0 : Except String Int) else pyIntOfString dflt).map
      (fun n => PyVal.int n) = .error e) :
    ∃ c, e.data.getLast? = some c ∧ c ≠ '.' := by
  split at h
  · exact absurd h (by simp [Except.map])
  · match hp : pyIntOfString dflt with
    | .ok n => rw [hp] at h; exact absurd h (by simp [Except.map])
    | .error e2 =>
        rw [hp] at h
        simp only [Except.map, Except.error.injEq] at h
        subst h
        exact ⟨'\'', pyIntOfString_error_last hp, by decide⟩

theorem transform_to_int_error_shape {v : PyVal} {args : List String} {e : String}
    (h : _transform_to_int v args = .error e) :
    ∃ c, e.data.getLast? = some c ∧ c ≠ '.' := by
  simp only [_transform_to_int] at h
  split at h
  · simp only [Except.error.injEq] at h
    subst h
    exact ⟨'n', append_data_getLast _ (by decide), by decide⟩
  · split at h
    · exact to_int_default_error_shape h
    · split at h
      · exact to_int_default_error_shape h
      · split at h
        · exact to_int_default_error_shape h
        · split at h
          · exact absurd h (by simp)
          · exact to_int_default_error_shape h
    · exact absurd h (by simp)
    · exact absurd h (by simp)
    · split at h
      · exact to_int_default_error_shape h
      · split at h
        · exact absurd h (by simp)
        · exact to_int_default_error_shape h

theorem transform_split_error_shape {v : PyVal} {args : List String} {e : String}
    (h : _transform_split v args = .error e) :
    ∃ c, e.data.getLast? = some c ∧ c ≠ '.' := by
  simp only [_transform_split] at h
  split at h
  · simp only [Except.error.injEq] at h
    subst h
    exact ⟨'n', append_data_getLast _ (by decide), by decide⟩
  · split at h
    · exact absurd h (by simp)
    · exact absurd h (by simp)
    · split at h
      · exact absurd h (by simp)
      · exact absurd h (by simp)

theorem transform_join_error_shape {v : PyVal} {args : List String} {e : String}
    (h : _transform_join v args = .error e) :
    ∃ c, e.data.getLast? = some c ∧ c ≠ '.' := by
  simp only [_transform_join] at h
  split at h
  · simp only [Except.error.injEq] at h
    subst h
    exact ⟨'n', append_data_getLast _ (by decide), by decide⟩
  · split at h
    · exact absurd h (by simp)
    · exact absurd h (by simp)
    · exact absurd h (by simp)

theorem parse_transform_error_eq {t e : String} (h : _parse_transform t = .error e) :
    e = "empty transform" := by
  simp only [_parse_transform] at h
  split at h
  · simpa [eq_comm] using h
  · split at h <;> simp at h


theorem transforms_get_error_shape {name : String} {fn : TransformFn}
    (hg : _TRANSFORMS_get name = some fn) :
    ∀ v args e, fn v args = .error e → ∃ c, e.data.getLast? = some c ∧ c ≠ '.' := by
  intro v args e h
  simp only [_TRANSFORMS_get] at hg
  split at hg
  · cases hg; exact absurd h (transform_trim_no_error v args e)
  ·
    split at hg
    · cases hg; exact absurd h (transform_lower_no_error v args e)
    ·
      split at hg
      · cases hg; exact absurd h (transform_upper_no_error v args e)
      ·
        split at hg
        · cases hg; exact transform_to_int_error_shape h
        ·
          split at hg
          · cases hg; exact transform_to_int_error_shape h
          ·
            split at hg
            · cases hg; exact absurd h (transform_basename_no_error v args e)
            ·
              split at hg
              · cases hg; exact transform_split_error_shape h
              ·
                split at hg
                · cases hg; exact transform_split_error_shape h
                ·
                  split at hg
                  · cases hg; exact transform_join_error_shape h
                  ·
                    split at hg
                    · cases hg; exact transform_join_error_shape h
                    · cases hg

theorem apply_transforms_error_shape : ∀ {ts : List String} {v : PyVal} {e : String},
    apply_transforms v ts = .error e → ∃ c, e.data.getLast? = some c ∧ c ≠ '.' := by
  intro ts
  induction ts with
  | nil => intro v e h; exact absurd h (by simp [apply_transforms])
  | cons t rest ih =>
      intro v e h
      simp only [apply_transforms] at h
      split at h
      · simp only [Except.error.injEq] at h
        subst h
        have := parse_transform_error_eq (by assumption)
        subst this
        exact ⟨'m', by decide, by decide⟩
      · split at h
        · simp only [Except.error.injEq] at h
          subst h
          exact ⟨'\'', append_data_getLast _ (by decide), by decide⟩
        · split at h
          · simp only [Except.error.injEq] at h
            subst h
            exact transforms_get_error_shape (by assumption) _ _ _ (by assumption)
          · exact ih h

theorem dupMsg_head (id : String) : (dupMsg id).data.head? = some 'D' := by
  show ((("Duplicate task_id '" : String) ++ id) ++ "' in upload; skipped.").data.head? = some 'D'
  exact append_data_head _ (append_data_head _ (by decide))

theorem dupMsg_last (id : String) : (dupMsg id).data.getLast? = some '.' := by
  show ((("Duplicate task_id '" : String) ++ id) ++ "' in upload; skipped.").data.getLast? = some '.'
  exact append_data_getLast _ (by decide)

theorem existsMsg_head (id : String) : (existsMsg id).data.head? = some 't' := by
  show ((("task_id '" : String) ++ id) ++ "' already exists for this project; skipped.").data.head? = some 't'
  exact append_data_head _ (append_data_head _ (by decide))

theorem existsMsg_ne_dupMsg (a b : String) : existsMsg a ≠ dupMsg b := by
  intro h
  have h2 : (existsMsg a).data.head? = (dupMsg b).data.head? := by rw [h]
  rw [existsMsg_head, dupMsg_head] at h2
  exact absurd (Option.some.inj h2) (by decide)

theorem resolve_column_error_eq {row : Record} {rn : Int} {cfg : ColumnCoreConfig}
    {d e : String} (happ : apply_transforms (pyGet row cfg.name) cfg.transforms = .error e) :
    _resolve_column_value row rn cfg d =
      (d, [cfg.name ++ " transform error → " ++ e, cfg.name ++ " empty → using default"]) := by
  simp only [_resolve_column_value, happ]

theorem resolve_column_missing_eq {row : Record} {rn : Int} {cfg : ColumnCoreConfig}
    {d : String} {v : PyVal} (happ : apply_transforms (pyGet row cfg.name) cfg.transforms = .ok v)
    (hs : missing_sentinel v = true) :
    _resolve_column_value row rn cfg d = (d, [cfg.name ++ " empty → using default"]) := by
  simp only [_resolve_column_value, happ, hs, if_true]

theorem resolve_column_present_eq {row : Record} {rn : Int} {cfg : ColumnCoreConfig}
    {d : String} {v : PyVal} (happ : apply_transforms (pyGet row cfg.name) cfg.transforms = .ok v)
    (hs : missing_sentinel v = false) :
    _resolve_column_value row rn cfg d = (pyStr v, []) := by
  simp [_resolve_column_value, happ, hs]

theorem resolve_column_default_of_missing {row : Record} {rn : Int} {cfg : ColumnCoreConfig}
    {d : String} (hm : column_value_missing row cfg = true) :
    (_resolve_column_value row rn cfg d).1 = d := by
  unfold column_value_missing at hm
  cases happ : apply_transforms (pyGet row cfg.name) cfg.transforms with
  | error e => rw [resolve_column_error_eq happ]
  | ok v =>
      rw [happ] at hm
      rw [resolve_column_missing_eq happ hm]

theorem resolve_column_ne_empty {row : Record} {rn : Int} {cfg : ColumnCoreConfig}
    {d : String} (hd : d ≠ "") : (_resolve_column_value row rn cfg d).1 ≠ "" := by
  cases happ : apply_transforms (pyGet row cfg.name) cfg.transforms with
  | error e => rw [resolve_column_error_eq happ]; exact hd
  | ok v =>
      cases hs : missing_sentinel v with
      | true => rw [resolve_column_missing_eq happ hs]; exact hd
      | false =>
          rw [resolve_column_present_eq happ hs]
          exact not_missing_pyStr_ne_empty hs

theorem resolve_column_issue_shape (row : Record) (rn : Int) (cfg : ColumnCoreConfig)
    (d : String) : ∀ m ∈ (_resolve_column_value row rn cfg d).2,
    ∃ c, m.data.getLast? = some c ∧ c ≠ '.' := by
  intro m hm
  cases happ : apply_transforms (pyGet row cfg.name) cfg.transforms with
  | error e =>
      rw [resolve_column_error_eq happ] at hm
      simp only [List.mem_cons, List.not_mem_nil, or_false] at hm
      rcases hm with h1 | h2
      · subst h1
        obtain ⟨c, hc, hcd⟩ := apply_transforms_error_shape happ
        exact ⟨c, append_data_getLast _ hc, hcd⟩
      · subst h2
        exact ⟨'t', append_data_getLast _ (by decide), by decide⟩
  | ok v =>
      cases hs : missing_sentinel v with
      | true =>
          rw [resolve_column_missing_eq happ hs] at hm
          simp only [List.mem_singleton] at hm
          subst hm
          exact ⟨'t', append_data_getLast _ (by decide), by decide⟩
      | false =>
          rw [resolve_column_present_eq happ hs] at hm
          simp at hm

theorem build_payload_issue_shape (row : Record) : ∀ (sels : List PayloadSelection),
    ∀ m ∈ (_build_payload row sels).2, ∃ c, m.data.getLast? = some c ∧ c ≠ '.' := by
  intro sels
  induction sels with
  | nil => intro m hm; simp [_build_payload] at hm
  | cons sel rest ih =>
      intro m hm
      cases sel with
      | column col key ts =>
          cases happ : apply_transforms (pyGet row col) ts with
          | error e =>
              cases hrec : _build_payload row rest with
              | mk p i =>
                  simp only [_build_payload, happ, hrec, List.mem_cons] at hm
                  rcases hm with h1 | h2
                  · subst h1
                    obtain ⟨c, hc, hcd⟩ := apply_transforms_error_shape happ
                    exact ⟨c, append_data_getLast _ hc, hcd⟩
                  · exact ih m (by rw [hrec]; exact h2)
          | ok v =>
              cases hs : missing_sentinel v with
              | true =>
                  simp only [_build_payload, happ, hs, if_true] at hm
                  exact ih m hm
              | false =>
                  cases hrec : _build_payload row rest with
                  | mk p i =>
                      simp [_build_payload, happ, hs, hrec] at hm
                      exact ih m (by rw [hrec]; exact hm)
      | constant key v =>
          cases hrec : _build_payload row rest with
          | mk p i =>
              simp only [_build_payload, hrec] at hm
              exact ih m (by rw [hrec]; exact hm)

theorem resolve_task_id_ne_empty {gen : Nat → String} (hgen : ∀ k, gen k ≠ "")
    (row : Record) (rn : Int) (config : CoreFieldConfig)
    (rt : MappingRuntime) (rand : RandState) :
    (_resolve_task_id gen row rn config rt rand).1 ≠ "" := by
  cases config with
  | generate strategy expression =>
      simp only [_resolve_task_id, freshUuid, MappingRuntime.next_seq]
      split
      · exact hgen _
      · split
        · exact nat_repr_ne_empty _
        · split
          · match expression with
            | Option.none => exact hgen _
            | some t =>
                simp only []
                split
                · exact hgen _
                · split
                  · exact hgen _
                  · exact not_missing_pyStr_ne_empty (by simp_all)
          · exact hgen _
  | column name ts =>
      simp only [_resolve_task_id, freshUuid]
      cases happ : apply_transforms (pyGet row name) ts with
      | error e => simp only [happ]; exact hgen _
      | ok v =>
          cases hs : missing_sentinel v with
          | true => simp only [happ, hs, if_true]; exact hgen _
          | false =>
              simp only [happ, hs]
              simp only [Bool.false_eq_true, if_false]
              exact not_missing_pyStr_ne_empty hs

theorem resolve_task_id_column_missing {gen : Nat → String} {row : Record} {rn : Int}
    {name : String} {ts : List String} {rt : MappingRuntime} {rand : RandState}
    (hm : column_value_missing row ⟨name, ts⟩ = true) :
    (_resolve_task_id gen row rn (.column name ts) rt rand).1 = gen rand.counter := by
  unfold column_value_missing at hm
  cases happ : apply_transforms (pyGet row name) ts with
  | error e => simp [_resolve_task_id, happ, freshUuid]
  | ok v =>
      simp only [happ] at hm
      simp [_resolve_task_id, happ, hm, freshUuid]

theorem resolve_task_id_issue_shape (gen : Nat → String) (row : Record) (rn : Int)
    (config : CoreFieldConfig) (rt : MappingRuntime) (rand : RandState) :
    ∀ m ∈ (_resolve_task_id gen row rn config rt rand).2.1,
    ∃ c, m.data.head? = some c ∧ c ≠ 'D' := by
  intro m hm
  cases config with
  | generate strategy expression =>
      simp only [_resolve_task_id, freshUuid, MappingRuntime.next_seq] at hm
      split at hm
      · simp at hm
      · split at hm
        · simp at hm
        · split at hm
          · match expression, hm with
            | Option.none, hm =>
                simp only [List.mem_singleton] at hm
                subst hm
                exact ⟨'t', by decide, by decide⟩
            | some t, hm =>
                simp only [] at hm
                split at hm
                · simp only [List.mem_singleton] at hm
                  subst hm
                  exact ⟨'t', append_data_head _ (by decide), by decide⟩
                · split at hm
                  · simp only [List.mem_singleton] at hm
                    subst hm
                    exact ⟨'t', by decide, by decide⟩
                  · simp at hm
          · simp only [List.mem_singleton] at hm
            subst hm
            exact ⟨'U', append_data_head _ (by decide), by decide⟩
  | column name ts =>
      simp only [_resolve_task_id, freshUuid] at hm
      cases happ : apply_transforms (pyGet row name) ts with
      | error e =>
          rw [happ] at hm
          simp only [List.mem_cons, List.not_mem_nil, or_false] at hm
          rcases hm with h1 | h2
          · subst h1
            exact ⟨'t', append_data_head _ (by decide), by decide⟩
          · subst h2
            exact ⟨'t', by decide, by decide⟩
      | ok v =>
          simp only [happ] at hm
          cases hs : missing_sentinel v with
          | true =>
              simp [hs] at hm
              subst hm
              exact ⟨'t', by decide, by decide⟩
          | false => simp [hs] at hm

theorem process_row_eq (gen : Nat → String) (row : Record) (rn : Int)
    (mapping : MappingConfig) (rt : MappingRuntime) (rand : RandState) :
    process_row gen row rn mapping rt rand =
      (⟨rn, (_resolve_task_id gen row rn mapping.core.task_id rt rand).1,
        (_resolve_column_value row rn mapping.core.task_name "Untitled").1,
        (_resolve_column_value row rn mapping.core.file_name
          ("row_" ++ toString (rn - 1) ++ ".dat")).1,
        (_build_payload row mapping.payload_selected).1⟩,
       (_resolve_task_id gen row rn mapping.core.task_id rt rand).2.1
         ++ (_resolve_column_value row rn mapping.core.task_name "Untitled").2
         ++ (_resolve_column_value row rn mapping.core.file_name
              ("row_" ++ toString (rn - 1) ++ ".dat")).2
         ++ (_build_payload row mapping.payload_selected).2,
       (_resolve_task_id gen row rn mapping.core.task_id rt rand).2.2.1,
       (_resolve_task_id gen row rn mapping.core.task_id rt rand).2.2.2) := by
  cases h1 : _resolve_task_id gen row rn mapping.core.task_id rt rand with
  | mk tid rest1 =>
      cases rest1 with
      | mk iss1 rest2 =>
          cases rest2 with
          | mk rt2 rd2 =>
              cases h2 : _resolve_column_value row rn mapping.core.task_name "Untitled" with
              | mk tn iss2 =>
                  cases h3 : _resolve_column_value row rn mapping.core.file_name
                      ("row_" ++ toString (rn - 1) ++ ".dat") with
                  | mk fn iss3 =>
                      cases h4 : _build_payload row mapping.payload_selected with
                      | mk payload iss4 =>
                          simp only [process_row, h1, h2, h3, h4]

theorem process_row_issue_not_dup (gen : Nat → String) (row : Record) (rn : Int)
    (mapping : MappingConfig) (rt : MappingRuntime) (rand : RandState) :
    ∀ m ∈ (process_row gen row rn mapping rt rand).2.1, ∀ id, m ≠ dupMsg id := by
  intro m hm id heq
  rw [process_row_eq] at hm
  simp only [List.mem_append] at hm
  have hd : m.data.head? = some 'D' := by rw [heq]; exact dupMsg_head id
  have hl : m.data.getLast? = some '.' := by rw [heq]; exact dupMsg_last id
  rcases hm with ((h1 | h2) | h3) | h4
  · obtain ⟨c, hc, hcd⟩ :=
      resolve_task_id_issue_shape gen row rn mapping.core.task_id rt rand m h1
    exact hcd (Option.some.inj (hc.symm.trans hd))
  · obtain ⟨c, hc, hcd⟩ :=
      resolve_column_issue_shape row rn mapping.core.task_name "Untitled" m h2
    exact hcd (Option.some.inj (hc.symm.trans hl))
  · obtain ⟨c, hc, hcd⟩ :=
      resolve_column_issue_shape row rn mapping.core.file_name
        ("row_" ++ toString (rn - 1) ++ ".dat") m h3
    exact hcd (Option.some.inj (hc.symm.trans hl))
  · obtain ⟨c, hc, hcd⟩ :=
      build_payload_issue_shape row mapping.payload_selected m h4
    exact hcd (Option.some.inj (hc.symm.trans hl))

theorem preview_process_rows_spec (gen : Nat → String) (mapping : MappingConfig) :
    ∀ (rows : List (Int × Record)) (rt : MappingRuntime) (rand : RandState),
    (preview_process_rows gen mapping rt rand rows).1.length = rows.length ∧
    ∀ issue ∈ (preview_process_rows gen mapping rt rand rows).2, ∀ id,
      issue.message ≠ dupMsg id := by
  intro rows
  induction rows with
  | nil =>
      intro rt rand
      refine ⟨rfl, ?_⟩
      intro issue hi
      simp [preview_process_rows] at hi
  | cons entry rest ih =>
      intro rt rand
      obtain ⟨rn, rec⟩ := entry
      cases hp : process_row gen rec rn mapping rt rand with
      | mk pr rest1 =>
          cases rest1 with
          | mk ri rest2 =>
              cases rest2 with
              | mk rt2 rd2 =>
                  cases hrec : preview_process_rows gen mapping rt2 rd2 rest with
                  | mk prs iss =>
                      constructor
                      · have hlen := (ih rt2 rd2).1
                        rw [hrec] at hlen
                        simp only [preview_process_rows, hp, hrec, List.length_cons]
                        simpa using hlen
                      · intro issue hi
                        simp only [preview_process_rows, hp, hrec, List.mem_append,
                          List.mem_map] at hi
                        rcases hi with ⟨m, hm, hmi⟩ | h2
                        · intro id hmsg
                          have hmem : m ∈ (process_row gen rec rn mapping rt rand).2.1 := by
                            rw [hp]; exact hm
                          refine process_row_issue_not_dup gen rec rn mapping rt rand m hmem id ?_
                          rw [← hmsg, ← hmi]
                        · have := (ih rt2 rd2).2 issue (by rw [hrec]; exact h2)
                          exact this

theorem stripRight_sublist (p : Char → Bool) : ∀ l, List.Sublist (stripRight p l) l := by
  intro l
  induction l with
  | nil => simp [stripRight]
  | cons c rest ih =>
      simp only [stripRight]
      cases h : stripRight p rest with
      | nil =>
          by_cases hpc : p c = true
          · simp only [hpc, if_true]
            exact List.nil_sublist _
          · simp only [hpc, if_false]
            exact (List.nil_sublist rest).cons₂ c
      | cons x xs =>
          rw [h] at ih
          exact ih.cons₂ c

theorem stripChars_sublist (l : List Char) : List.Sublist (stripChars l) l :=
  (stripRight_sublist _ _).trans (List.dropWhile_sublist _)

theorem stripTake_len (src : List Char) :
    (String.mk (stripChars ((replaceInvalid src).take MAX_SHEET_NAME_LENGTH))).length
      ≤ MAX_SHEET_NAME_LENGTH := by
  show (stripChars ((replaceInvalid src).take MAX_SHEET_NAME_LENGTH)).length
      ≤ MAX_SHEET_NAME_LENGTH
  exact le_trans (stripChars_sublist _).length_le (by simp [List.length_take_le])

theorem stripTake_chars (src : List Char) :
    ∀ c ∈ stripChars ((replaceInvalid src).take MAX_SHEET_NAME_LENGTH),
      INVALID_SHEET_NAME_CHARS.contains c = false := by
  intro c hc
  have h1 : c ∈ (replaceInvalid src).take MAX_SHEET_NAME_LENGTH :=
    (stripChars_sublist _).mem hc
  have h2 : c ∈ replaceInvalid src := (List.take_sublist _ _).mem h1
  simp only [replaceInvalid, List.mem_map] at h2
  obtain ⟨c0, _, hc0⟩ := h2
  subst hc0
  split
  · decide
  · simp_all

theorem sanitize_core_safe (candidate1 baseFallback : List Char) :
    sanitize_core candidate1 baseFallback ≠ "" ∧
    (sanitize_core candidate1 baseFallback).length ≤ MAX_SHEET_NAME_LENGTH ∧
    (sanitize_core candidate1 baseFallback).data.all
      (fun c => !INVALID_SHEET_NAME_CHARS.contains c) = true := by
  simp only [sanitize_core]
  split
  · split
    · exact ⟨by decide, by decide, by decide⟩
    · refine ⟨string_ne_empty_of_data (by assumption), stripTake_len _, ?_⟩
      simp only [List.all_eq_true]
      intro c hc
      have hh := stripTake_chars _ c hc
      simp at hh ⊢
      exact hh
  · refine ⟨string_ne_empty_of_data (by assumption), stripTake_len _, ?_⟩
    simp only [List.all_eq_true]
    intro c hc
    have hh := stripTake_chars _ c hc
    simp at hh ⊢
    exact hh

/-- C9: for every input name and fallback (including None, empty, over-long,
and names of only invalid characters), `sanitize_sheet_name` returns a
non-empty string of length at most 31 containing none of `[ ] : * ? / \`. -/
theorem sanitize_sheet_name_safe (name fallback : Option String) :
    sanitize_sheet_name name fallback ≠ "" ∧
    (sanitize_sheet_name name fallback).length ≤ MAX_SHEET_NAME_LENGTH ∧
    (sanitize_sheet_name name fallback).data.all
      (fun c => !INVALID_SHEET_NAME_CHARS.contains c) = true := by
  simp only [sanitize_sheet_name]
  exact sanitize_core_safe _ _

/-- C10: `apply_transforms` with an empty transform list (the `transforms
or []` guard maps a `None` argument to the same case) returns the value
unchanged. -/
theorem apply_transforms_nil_id (v : PyVal) : apply_transforms v [] = Except.ok v := rfl

/-- C8: preview applies no duplicate detection: `preview_import`'s row loop
emits exactly one task candidate per processed input row, and no recorded
issue is ever the confirm-phase duplicate-task_id message, even when several
rows resolve to the same task_id; duplicate filtering exists only in
`confirm_import`. -/
theorem preview_no_duplicate_detection (gen : Nat → String)
    (prepared : List (Int × Record)) (mapping : MappingConfig) :
    (preview_import_rows gen prepared mapping).1.length = prepared.length ∧
    ∀ issue ∈ (preview_import_rows gen prepared mapping).2, ∀ id,
      issue.message ≠ dupMsg id :=
  preview_process_rows_spec gen mapping prepared ⟨0⟩ ⟨0⟩

/-- Witness for C8 at two in-memory rows that resolve to the same task_id
"T1": the preview still yields two candidates and its issues never carry the
duplicate message. -/
theorem preview_no_duplicate_detection_witness :
    (preview_import_rows (fun _ => "00000000-0000-4000-8000-000000000000")
      [(2, [("id", PyVal.str "T1")]), (3, [("id", PyVal.str "T1")])]
      ⟨"Raw", ⟨.column "id" [], ⟨"task_name", []⟩, ⟨"file_name", []⟩⟩, []⟩).1.length = 2 ∧
    ∀ issue ∈ (preview_import_rows (fun _ => "00000000-0000-4000-8000-000000000000")
      [(2, [("id", PyVal.str "T1")]), (3, [("id", PyVal.str "T1")])]
      ⟨"Raw", ⟨.column "id" [], ⟨"task_name", []⟩, ⟨"file_name", []⟩⟩, []⟩).2, ∀ id,
      issue.message ≠ dupMsg id :=
  preview_no_duplicate_detection (fun _ => "00000000-0000-4000-8000-000000000000")
    [(2, [("id", PyVal.str "T1")]), (3, [("id", PyVal.str "T1")])]
    ⟨"Raw", ⟨.column "id" [], ⟨"task_name", []⟩, ⟨"file_name", []⟩⟩, []⟩

theorem claim_flagged_violation : ∀ {n : PyNode}, claim_flagged n = true →
    (nodeViolation n).isSome = true := by
  intro n h
  cases n with
  | oper k => simp [claim_flagged] at h
  | expr e =>
      cases e with
      | call f args => simp [nodeViolation]
      | attrAccess v a => simp [nodeViolation]
      | name id =>
          simp only [claim_flagged, Bool.not_eq_true'] at h
          simp only [nodeViolation]
          rw [h]
          simp
      | subscript v idx =>
          simp only [claim_flagged, Bool.not_eq_true'] at h
          cases v with
          | name vid =>
              by_cases hv : vid = "row"
              · subst hv
                cases idx <;> simp_all [nodeViolation]
              · simp [nodeViolation, hv]
          | constant c => simp [nodeViolation]
          | binop k l r => simp [nodeViolation]
          | unaryop k o => simp [nodeViolation]
          | boolop a vs => simp [nodeViolation]
          | compare l ops rs => simp [nodeViolation]
          | call f args => simp [nodeViolation]
          | attrAccess w a => simp [nodeViolation]
          | subscript w i => simp [nodeViolation]
          | sliceNode lo hi st => simp [nodeViolation]
          | joinedStr vs => simp [nodeViolation]
          | formattedValue w => simp [nodeViolation]
          | ifExp a b c => simp [nodeViolation]
          | listExpr elts => simp [nodeViolation]
          | tupleExpr elts => simp [nodeViolation]
          | dictExpr pairs => simp [nodeViolation]
      | constant c => simp [claim_flagged] at h
      | binop k l r => simp [claim_flagged] at h
      | unaryop k o => simp [claim_flagged] at h
      | boolop a vs => simp [claim_flagged] at h
      | compare l ops rs => simp [claim_flagged] at h
      | sliceNode lo hi st => simp [claim_flagged] at h
      | joinedStr vs => simp [claim_flagged] at h
      | formattedValue w => simp [claim_flagged] at h
      | ifExp a b c => simp [claim_flagged] at h
      | listExpr elts => simp [claim_flagged] at h
      | tupleExpr elts => simp [claim_flagged] at h
      | dictExpr pairs => simp [claim_flagged] at h

theorem findSome?_isSome_of_mem {α β : Type} {f : α → Option β} {l : List α} {a : α}
    (ha : a ∈ l) (hf : (f a).isSome = true) : ∃ b, l.findSome? f = some b := by
  induction l with
  | nil => cases ha
  | cons x rest ih =>
      cases hx : f x with
      | some b => exact ⟨b, by simp [List.findSome?_cons, hx]⟩
      | none =>
          rcases List.mem_cons.mp ha with h1 | h2
          · subst h1
            rw [hx] at hf
            simp at hf
          · obtain ⟨b, hb⟩ := ih h2
            exact ⟨b, by simp [List.findSome?_cons, hx, hb]⟩

/-- C2: for every parsed expression containing a function call, an attribute
access, a name outside `{row_index, excel_row, seq, row}`, or a subscript
that is not `row[<constant>]`, `_validate_ast` raises before any evaluation
— `_safe_eval_expression` returns exactly the validation error, whose
message names a violating walked node — and accepted expressions evaluate
through `evalExpr`, a function of the four-binding context alone (the
compiled code's globals are `{"__builtins__": {}}`). -/
theorem safe_eval_rejects_flagged (t : PyExpr) (ctx : EvalCtx) :
    ((astWalk t).any claim_flagged = true →
      ∃ msg, _validate_ast t = .error msg ∧ _safe_eval_expression t ctx = .error msg ∧
        ∃ n ∈ astWalk t, nodeViolation n = some msg) ∧
    (_validate_ast t = .ok () → _safe_eval_expression t ctx = evalExpr ctx t) := by
  constructor
  · intro hany
    obtain ⟨n, hn, hflag⟩ := List.any_eq_true.mp hany
    obtain ⟨msg, hfind⟩ := findSome?_isSome_of_mem hn (claim_flagged_violation hflag)
    refine ⟨msg, ?_, ?_, List.exists_of_findSome?_eq_some hfind⟩
    · simp [_validate_ast, hfind]
    · simp [_safe_eval_expression, _validate_ast, hfind]
  · intro hok
    simp [_safe_eval_expression, hok]

/-- Witness for C2: the expression `open("x")` (a call on a disallowed name)
is rejected with the validation error surfacing through
`_safe_eval_expression`, whose message names a walked node. -/
theorem safe_eval_rejects_flagged_witness :
    ∃ msg, _validate_ast (.call (.name "open") [.constant (.str "x")]) = .error msg ∧
      _safe_eval_expression (.call (.name "open") [.constant (.str "x")])
        ⟨0, 2, 1, []⟩ = .error msg ∧
      ∃ n ∈ astWalk (.call (.name "open") [.constant (.str "x")]),
        nodeViolation n = some msg :=
  (safe_eval_rejects_flagged (.call (.name "open") [.constant (.str "x")]) ⟨0, 2, 1, []⟩).1
    (by simp [astWalk, bfsWalk, astChildren, claim_flagged])

theorem append_ne_empty_right (p s : String) (hs : s.data ≠ []) : (p ++ s) ≠ "" := by
  intro he
  have hd := congrArg String.data he
  rw [String.data_append] at hd
  simp only [List.append_eq_nil] at hd
  exact hs hd.2

/-- C1: for every row record, row number, mapping configuration and runtime
state — and any uuid stream yielding non-empty identifiers, as
`str(uuid4())` always does — `process_row` returns a candidate whose
task_id, task_name and file_name are non-empty strings; a missing task_name
resolves to "Untitled", a missing file_name to the row-indexed synthetic
filename, and a column-configured task_id whose source value is missing
falls back to the next generated identifier. -/
theorem process_row_core_fields (gen : Nat → String) (hgen : ∀ k, gen k ≠ "")
    (row : Record) (rn : Int) (mapping : MappingConfig)
    (rt : MappingRuntime) (rand : RandState) :
    (process_row gen row rn mapping rt rand).1.task_id ≠ "" ∧
    (process_row gen row rn mapping rt rand).1.task_name ≠ "" ∧
    (process_row gen row rn mapping rt rand).1.file_name ≠ "" ∧
    (column_value_missing row mapping.core.task_name = true →
      (process_row gen row rn mapping rt rand).1.task_name = "Untitled") ∧
    (column_value_missing row mapping.core.file_name = true →
      (process_row gen row rn mapping rt rand).1.file_name
        = "row_" ++ toString (rn - 1) ++ ".dat") ∧
    (∀ name ts, mapping.core.task_id = CoreFieldConfig.column name ts →
      column_value_missing row ⟨name, ts⟩ = true →
      (process_row gen row rn mapping rt rand).1.task_id = gen rand.counter) := by
  simp only [process_row_eq]
  refine ⟨?_, ?_, ?_, ?_, ?_, ?_⟩
  · exact resolve_task_id_ne_empty hgen row rn mapping.core.task_id rt rand
  · exact resolve_column_ne_empty (by decide)
  · exact resolve_column_ne_empty (append_ne_empty_right _ _ (by decide))
  · intro hm
    exact resolve_column_default_of_missing hm
  · intro hm
    exact resolve_column_default_of_missing hm
  · intro name ts hcfg hmiss
    rw [hcfg]
    exact resolve_task_id_column_missing hmiss

/-- Witness for C1 at a concrete row whose file_name column is absent and
whose task_id is column-configured on an absent column: the fallbacks fire
and every core field is non-empty. -/
theorem process_row_core_fields_witness :
    (process_row (fun _ => "u1") [("task_name", PyVal.str "Alpha")] 2
      ⟨"Raw", ⟨.column "id" [], ⟨"task_name", []⟩, ⟨"file_name", []⟩⟩, []⟩
      ⟨0⟩ ⟨0⟩).1.task_id ≠ "" ∧
    (process_row (fun _ => "u1") [("task_name", PyVal.str "Alpha")] 2
      ⟨"Raw", ⟨.column "id" [], ⟨"task_name", []⟩, ⟨"file_name", []⟩⟩, []⟩
      ⟨0⟩ ⟨0⟩).1.task_name ≠ "" ∧
    (process_row (fun _ => "u1") [("task_name", PyVal.str "Alpha")] 2
      ⟨"Raw", ⟨.column "id" [], ⟨"task_name", []⟩, ⟨"file_name", []⟩⟩, []⟩
      ⟨0⟩ ⟨0⟩).1.file_name ≠ "" ∧
    (column_value_missing [("task_name", PyVal.str "Alpha")] ⟨"task_name", []⟩ = true →
      (process_row (fun _ => "u1") [("task_name", PyVal.str "Alpha")] 2
        ⟨"Raw", ⟨.column "id" [], ⟨"task_name", []⟩, ⟨"file_name", []⟩⟩, []⟩
        ⟨0⟩ ⟨0⟩).1.task_name = "Untitled") ∧
    (column_value_missing [("task_name", PyVal.str "Alpha")] ⟨"file_name", []⟩ = true →
      (process_row (fun _ => "u1") [("task_name", PyVal.str "Alpha")] 2
        ⟨"Raw", ⟨.column "id" [], ⟨"task_name", []⟩, ⟨"file_name", []⟩⟩, []⟩
        ⟨0⟩ ⟨0⟩).1.file_name = "row_" ++ toString ((2 : Int) - 1) ++ ".dat") ∧
    (∀ name ts,
      (⟨"Raw", ⟨.column "id" [], ⟨"task_name", []⟩, ⟨"file_name", []⟩⟩, []⟩ :
        MappingConfig).core.task_id = CoreFieldConfig.column name ts →
      column_value_missing [("task_name", PyVal.str "Alpha")] ⟨name, ts⟩ = true →
      (process_row (fun _ => "u1") [("task_name", PyVal.str "Alpha")] 2
        ⟨"Raw", ⟨.column "id" [], ⟨"task_name", []⟩, ⟨"file_name", []⟩⟩, []⟩
        ⟨0⟩ ⟨0⟩).1.task_id = (fun _ : Nat => "u1") (0 : Nat)) :=
  process_row_core_fields (fun _ => "u1")
    (by intro k; show ("u1" : String) ≠ ""; decide)
    [("task_name", PyVal.str "Alpha")] 2
    ⟨"Raw", ⟨.column "id" [], ⟨"task_name", []⟩, ⟨"file_name", []⟩⟩, []⟩ ⟨0⟩ ⟨0⟩

/-- C7 counterexample: a whitespace-only string is NOT treated as missing by
the code's `value in (None, "", [])` test (unlike the spec's
`value_is_missing`): a core field resolving to " " keeps " " instead of its
default, and a payload column selection resolving to " " is kept, not
omitted. -/
theorem whitespace_not_missing_counterexample :
    missing_sentinel (.str " ") = false ∧
    spec_value_is_missing (.str " ") = true ∧
    (_resolve_column_value [("a", PyVal.str " ")] 2 ⟨"a", []⟩ "Untitled").1 = " " ∧
    (_resolve_column_value [("a", PyVal.str " ")] 2 ⟨"a", []⟩ "Untitled").1 ≠ "Untitled" ∧
    (_build_payload [("a", PyVal.str " ")] [.column "a" "k" []]).1
      = [("k", PyVal.str " ")] :=
  ⟨rfl, rfl, rfl, by decide, rfl⟩

/-- C7 (amended): the mapping engine's missing test is membership in
`(None, "", [])`: None, the empty string and the empty list are missing;
every other value — whitespace-only strings, 0 and False included — is
present. A core field whose transformed value is missing is replaced by its
default; otherwise it is stringified verbatim. A payload column selection is
omitted exactly when its transformed value is missing; constant selections
always set their value. -/
theorem missing_sentinel_behavior :
    (∀ s : String, s ≠ "" → missing_sentinel (.str s) = false) ∧
    (∀ n : Int, missing_sentinel (.int n) = false) ∧
    (∀ b : Bool, missing_sentinel (.bool b) = false) ∧
    missing_sentinel .none = true ∧
    missing_sentinel (.str "") = true ∧
    missing_sentinel (.list []) = true ∧
    (∀ (row : Record) (rn : Int) (cfg : ColumnCoreConfig) (d : String) (v : PyVal),
      apply_transforms (pyGet row cfg.name) cfg.transforms = Except.ok v →
      ((missing_sentinel v = true → (_resolve_column_value row rn cfg d).1 = d) ∧
       (missing_sentinel v = false → (_resolve_column_value row rn cfg d).1 = pyStr v))) ∧
    (∀ (row : Record) (col key : String) (ts : List String) (v : PyVal),
      apply_transforms (pyGet row col) ts = Except.ok v →
      ((missing_sentinel v = true → (_build_payload row [.column col key ts]).1 = []) ∧
       (missing_sentinel v = false →
         (_build_payload row [.column col key ts]).1 = [(key, v)]))) ∧
    (∀ (row : Record) (key : String) (v : PyVal),
      (_build_payload row [PayloadSelection.constant key v]).1 = [(key, v)]) := by
  refine ⟨?_, ?_, ?_, rfl, rfl, rfl, ?_, ?_, ?_⟩
  · intro s hs
    simp [missing_sentinel, hs]
  · intro n
    simp [missing_sentinel]
  · intro b
    simp [missing_sentinel]
  · intro row rn cfg d v happ
    constructor
    · intro hs
      rw [resolve_column_missing_eq happ hs]
    · intro hs
      rw [resolve_column_present_eq happ hs]
  · intro row col key ts v happ
    constructor
    · intro hs
      simp [_build_payload, happ, hs]
    · intro hs
      simp [_build_payload, happ, hs, dictSet]
  · intro row key v
    simp [_build_payload, dictSet]

/-- Witness for C7 (amended) at the whitespace-only value " ": it is not
missing, and the core field keeps " " verbatim. -/
theorem missing_sentinel_behavior_witness :
    missing_sentinel (.str " ") = false ∧
    (_resolve_column_value [("a", PyVal.str " ")] 2 ⟨"a", []⟩ "Untitled").1
      = pyStr (.str " ") :=
  ⟨missing_sentinel_behavior.1 " " (by decide),
   (missing_sentinel_behavior.2.2.2.2.2.2.1 [("a", PyVal.str " ")] 2 ⟨"a", []⟩
      "Untitled" (.str " ") rfl).2 rfl⟩

/-- C5 counterexample: on `{"data":{"items":[{"id":1},{"id":2}]}}` no
top-level value is an array, so auto-detection yields ONE record — the whole
root object — whose flattening has the single key "data.items", not two
records with key "id". -/
theorem auto_detect_nested_counterexample :
    (_auto_detect_records (.dict [("data", .dict [("items",
        .list [.dict [("id", .int 1)], .dict [("id", .int 2)]])])])).length = 1 ∧
    ((_auto_detect_records (.dict [("data", .dict [("items",
        .list [.dict [("id", .int 1)], .dict [("id", .int 2)]])])])).map
      (fun r => (flatten_record (.dict r)).map Prod.fst)) = [["data.items"]] :=
  ⟨rfl, rfl⟩

/-- C5 (amended): auto-detection inspects only top-level dict keys. On
`{"data":{"items":[…]}}` the whole object is the single record; on the
un-nested `{"items":[{"id":1},{"id":2}]}` it yields exactly 2 records, each
flattening to the key "id"; among several top-level array-of-object
candidates the longest (by object count) wins, ties broken by first-seen
order. -/
theorem auto_detect_records_behavior :
    _auto_detect_records (.dict [("data", .dict [("items",
        .list [.dict [("id", .int 1)], .dict [("id", .int 2)]])])])
      = [[("data", .dict [("items",
          .list [.dict [("id", .int 1)], .dict [("id", .int 2)]])])]] ∧
    _auto_detect_records (.dict [("items",
        .list [.dict [("id", .int 1)], .dict [("id", .int 2)]])])
      = [[("id", PyVal.int 1)], [("id", PyVal.int 2)]] ∧
    ((_auto_detect_records (.dict [("items",
        .list [.dict [("id", .int 1)], .dict [("id", .int 2)]])])).map
      (fun r => (flatten_record (.dict r)).map Prod.fst)) = [["id"], ["id"]] ∧
    _auto_detect_records (.dict [("a", .list [.dict [("x", .int 1)]]),
        ("b", .list [.dict [("y", .int 1)], .dict [("y", .int 2)]])])
      = [[("y", PyVal.int 1)], [("y", PyVal.int 2)]] ∧
    _auto_detect_records (.dict [("a", .list [.dict [("x", .int 1)]]),
        ("b", .list [.dict [("y", .int 1)]])])
      = [[("x", PyVal.int 1)]] :=
  ⟨rfl, rfl, rfl, rfl, rfl⟩

/-- C6 counterexample: the seq_per_batch scenario records one
"file_name empty → using default" issue per row (the mapped file_name
column is absent), so the issue list is not empty as claimed. -/
theorem seq_scenario_issues_counterexample :
    (preview_import_rows (fun n => "uuid-" ++ toString n)
      (prepare_dataset_rows [[("task_name", PyVal.str "Alpha")],
        [("task_name", PyVal.str "Alpha")]] 2).2.1
      ⟨"Raw", ⟨.generate "seq_per_batch" Option.none,
        ⟨"task_name", []⟩, ⟨"file_name", []⟩⟩, []⟩).2
      = [⟨2, "file_name empty → using default"⟩,
         ⟨3, "file_name empty → using default"⟩] ∧
    (preview_import_rows (fun n => "uuid-" ++ toString n)
      (prepare_dataset_rows [[("task_name", PyVal.str "Alpha")],
        [("task_name", PyVal.str "Alpha")]] 2).2.1
      ⟨"Raw", ⟨.generate "seq_per_batch" Option.none,
        ⟨"task_name", []⟩, ⟨"file_name", []⟩⟩, []⟩).2.length ≠ 0 :=
  ⟨rfl, by decide⟩

/-- C6 (amended): the two rows produce exactly the claimed candidates —
task_ids "1" and "2", task_name "Alpha", file_names "row_1.dat" and
"row_2.dat" at excel rows 2 and 3 — together with exactly one
file_name-default issue per row (not zero issues). -/
theorem seq_scenario_behavior :
    (preview_import_rows (fun n => "uuid-" ++ toString n)
      (prepare_dataset_rows [[("task_name", PyVal.str "Alpha")],
        [("task_name", PyVal.str "Alpha")]] 2).2.1
      ⟨"Raw", ⟨.generate "seq_per_batch" Option.none,
        ⟨"task_name", []⟩, ⟨"file_name", []⟩⟩, []⟩).1
      = [⟨2, "1", "Alpha", "row_1.dat", []⟩, ⟨3, "2", "Alpha", "row_2.dat", []⟩] ∧
    (preview_import_rows (fun n => "uuid-" ++ toString n)
      (prepare_dataset_rows [[("task_name", PyVal.str "Alpha")],
        [("task_name", PyVal.str "Alpha")]] 2).2.1
      ⟨"Raw", ⟨.generate "seq_per_batch" Option.none,
        ⟨"task_name", []⟩, ⟨"file_name", []⟩⟩, []⟩).2
      = [⟨2, "file_name empty → using default"⟩,
         ⟨3, "file_name empty → using default"⟩] :=
  ⟨rfl, rfl⟩

theorem confirm_step_pending_skipped (gen : Nat → String) (mapping : MappingConfig)
    (st : ConfirmState) (e : Int × Record) :
    (confirm_step gen mapping st e).pending.length + (confirm_step gen mapping st e).skipped
      = st.pending.length + st.skipped + 1 := by
  simp only [confirm_step]
  split
  · simp
    omega
  · simp [List.length_append]
    omega

/-- C3 (amended): the two duplicate-detection layers of `confirm_import`:
(1) a row whose resolved task_id was already seen in the batch is skipped —
not added to pending — with an issue recorded at the *duplicate occurrence's
own row number* (not the first occurrence's) whose message names the
task_id; (2) the conflict filter drops every candidate whose task_id is
already persisted for the project, with a distinct "already exists" issue
recorded at the id's first in-batch row number (`seen_ids.get(id, 0)`);
(3) the two issue messages are never equal; (4) neither layer aborts the
batch: every processed row ends up pending or skipped. -/
theorem confirm_duplicate_layers :
    (∀ (gen : Nat → String) (mapping : MappingConfig) (st : ConfirmState)
       (rn : Int) (rec : Record) (pr : PreviewRow) (ri : List String)
       (rt2 : MappingRuntime) (rd2 : RandState),
      process_row gen rec rn mapping st.runtime st.rand = (pr, ri, rt2, rd2) →
      (st.seen.lookup pr.task_id).isSome = true →
      confirm_step gen mapping st (rn, rec) =
        ⟨st.pending, st.issues ++ [⟨rn, dupMsg pr.task_id⟩], st.seen,
         st.skipped + 1, rt2, rd2⟩) ∧
    (∀ (seen : List (String × Int)) (dups : List String)
       (pending : List (PreviewRow × List String)),
      conflict_filter seen dups pending =
        (pending.filterMap (fun p =>
          if dups.contains p.1.task_id then
            some (PreviewIssue.mk ((seen.lookup p.1.task_id).getD 0) (existsMsg p.1.task_id))
          else Option.none),
         pending.countP (fun p => dups.contains p.1.task_id),
         pending.filter (fun p => !dups.contains p.1.task_id))) ∧
    (∀ a b, existsMsg a ≠ dupMsg b) ∧
    (∀ (gen : Nat → String) (mapping : MappingConfig) (st : ConfirmState)
       (rows : List (Int × Record)),
      (confirm_loop gen mapping st rows).pending.length
          + (confirm_loop gen mapping st rows).skipped
        = st.pending.length + st.skipped + rows.length) := by
  refine ⟨?_, ?_, existsMsg_ne_dupMsg, ?_⟩
  · intro gen mapping st rn rec pr ri rt2 rd2 hp hseen
    simp only [confirm_step, hp, hseen, if_true]
  · intro seen dups pending
    induction pending with
    | nil => simp [conflict_filter]
    | cons p rest ih =>
        by_cases hd : p.1.task_id ∈ dups
        · simp [conflict_filter, ih, hd, List.countP_cons]
        · simp [conflict_filter, ih, hd, List.countP_cons]
  · intro gen mapping st rows
    induction rows generalizing st with
    | nil => simp [confirm_loop]
    | cons e rest ih =>
        have hstep := confirm_step_pending_skipped gen mapping st e
        have := ih (confirm_step gen mapping st e)
        simp only [confirm_loop, List.foldl_cons] at this ⊢
        rw [this, hstep]
        simp [List.length_cons]
        omega

/-- Witness for C3 (amended), layer (1): with "T1" first seen at row 2, the
second occurrence at row 3 is skipped with the duplicate issue recorded at
row 3. -/
theorem confirm_duplicate_layers_witness :
    confirm_step (fun _ => "u1")
      ⟨"Raw", ⟨.column "id" [], ⟨"task_name", []⟩, ⟨"file_name", []⟩⟩, []⟩
      ⟨[], [], [("T1", 2)], 0, ⟨0⟩, ⟨0⟩⟩ (3, [("id", PyVal.str "T1")]) =
      ⟨[], [] ++ [⟨3, dupMsg "T1"⟩], [("T1", 2)], 0 + 1, ⟨0⟩, ⟨0⟩⟩ :=
  confirm_duplicate_layers.1 (fun _ => "u1")
    ⟨"Raw", ⟨.column "id" [], ⟨"task_name", []⟩, ⟨"file_name", []⟩⟩, []⟩
    ⟨[], [], [("T1", 2)], 0, ⟨0⟩, ⟨0⟩⟩ 3 [("id", PyVal.str "T1")]
    ⟨3, "T1", "Untitled", "row_2.dat", []⟩
    ["task_name empty → using default", "file_name empty → using default"]
    ⟨0⟩ ⟨0⟩ rfl rfl

/-- C3 counterexample: two rows (excel rows 2 and 3) both resolve to "T1";
the recorded duplicate issue carries row 3 — the second occurrence — and its
message contains no reference to row 2, refuting "references the first
occurrence's row number". -/
theorem confirm_dup_row_counterexample :
    ((confirm_import (fun n => "uuid-" ++ toString n) 7
      [(2, [("id", PyVal.str "T1"), ("task_name", PyVal.str "A"),
            ("file_name", PyVal.str "f1")]),
       (3, [("id", PyVal.str "T1"), ("task_name", PyVal.str "B"),
            ("file_name", PyVal.str "f2")])]
      ⟨"Raw", ⟨.column "id" [], ⟨"task_name", []⟩, ⟨"file_name", []⟩⟩, []⟩
      ⟨[], []⟩ (.ok "stored.json") Option.none).1 =
      Except.ok ⟨1, 1, [⟨3, "Duplicate task_id 'T1' in upload; skipped."⟩]⟩) ∧
    (3 : Int) ≠ 2 ∧
    "Duplicate task_id 'T1' in upload; skipped.".data.contains '2' = false :=
  ⟨rfl, by decide, by decide⟩

theorem serializability_scan_eq (p : List (PreviewRow × List String)) :
    serializability_scan p = ([], 0) := by
  simp [serializability_scan, _is_json_serializable]

/-- C4: confirm is all-or-nothing: on any error the store is returned
unchanged (full rollback, no partial insert); on success with a non-empty
surviving batch the artifact record and all surviving task rows are applied
together in the one commit; and when the persistence layer rejects the
batch, the request fails with the 409 conflict carrying the constraint
message and the store is untouched. -/
theorem confirm_atomic_commit (gen : Nat → String) (pid : Int)
    (rows : List (Int × Record)) (mapping : MappingConfig) (db : DbState)
    (artifact : Except String String) (commitResult : Option String) :
    (∀ e, (confirm_import gen pid rows mapping db artifact commitResult).1
        = Except.error e →
      (confirm_import gen pid rows mapping db artifact commitResult).2 = db) ∧
    (∀ o, (confirm_import gen pid rows mapping db artifact commitResult).1
        = Except.ok o →
      ((confirm_import gen pid rows mapping db artifact commitResult).2 = db ∧
        o.inserted = 0) ∨
      (∃ stored, artifact = Except.ok stored ∧ commitResult = Option.none ∧
        (confirm_import gen pid rows mapping db artifact commitResult).2 =
          ⟨db.tasks ++ (confirm_surviving gen pid rows mapping db).map
              (fun p => toProjectTask pid p.1),
           db.importFiles ++ [(pid, stored)]⟩ ∧
        o.inserted = (confirm_surviving gen pid rows mapping db).length)) ∧
    (∀ orig stored, commitResult = some orig → artifact = Except.ok stored →
      confirm_surviving gen pid rows mapping db ≠ [] →
      (confirm_import gen pid rows mapping db artifact commitResult).1 =
        Except.error ⟨409, "Database constraint error while inserting tasks: " ++ orig⟩ ∧
      (confirm_import gen pid rows mapping db artifact commitResult).2 = db) := by
  cases hst : confirm_loop gen mapping ⟨[], [], [], 0, ⟨0⟩, ⟨0⟩⟩ rows with
  | mk pending issues seen skipped rt rand =>
  cases hcf : conflict_filter seen
      (_find_conflicts db.tasks pid (seen.map (fun kv => kv.1))) pending with
  | mk confIssues rest =>
  cases rest with
  | mk confSkipped pending2 =>
  have hsurv : confirm_surviving gen pid rows mapping db = pending2 := by
    simp only [confirm_surviving, hst, hcf]
  cases pending with
  | nil =>
      have hpen2 : pending2 = [] := by
        simp [conflict_filter] at hcf
        exact hcf.2.2
      have hres : confirm_import gen pid rows mapping db artifact commitResult
          = (Except.ok ⟨0, skipped, issues⟩, db) := by
        simp [confirm_import, hst]
      refine ⟨?_, ?_, ?_⟩
      · intro e he
        rw [hres] at he
        simp at he
      · intro o ho
        rw [hres] at ho
        simp only [Except.ok.injEq] at ho
        left
        rw [hres, ← ho]
        exact ⟨rfl, rfl⟩
      · intro orig stored hcr harti hne
        rw [hsurv] at hne
        exact absurd hpen2 hne
  | cons phead ptail =>
  cases pending2 with
  | nil =>
      have hres : confirm_import gen pid rows mapping db artifact commitResult
          = (Except.ok ⟨0, skipped + confSkipped, issues ++ confIssues⟩, db) := by
        simp [confirm_import, hst, hcf, serializability_scan_eq]
      refine ⟨?_, ?_, ?_⟩
      · intro e he
        rw [hres] at he
        simp at he
      · intro o ho
        rw [hres] at ho
        simp only [Except.ok.injEq] at ho
        left
        rw [hres, ← ho]
        exact ⟨rfl, rfl⟩
      · intro orig stored hcr harti hne
        rw [hsurv] at hne
        exact absurd rfl hne
  | cons qhead qtail =>
  cases artifact with
  | error d =>
      have hres : confirm_import gen pid rows mapping db
          (Except.error d) commitResult = (Except.error ⟨500, d⟩, db) := by
        simp [confirm_import, hst, hcf, serializability_scan_eq]
      refine ⟨?_, ?_, ?_⟩
      · intro e he
        rw [hres]
      · intro o ho
        rw [hres] at ho
        simp at ho
      · intro orig stored hcr harti hne
        simp at harti
  | ok stored0 =>
  cases commitResult with
  | none =>
      have hres : confirm_import gen pid rows mapping db
          (Except.ok stored0) Option.none
          = (Except.ok ⟨(qhead :: qtail).length, skipped + confSkipped,
              issues ++ confIssues⟩,
             ⟨db.tasks ++ (qhead :: qtail).map (fun p => toProjectTask pid p.1),
              db.importFiles ++ [(pid, stored0)]⟩) := by
        simp [confirm_import, hst, hcf, serializability_scan_eq]
      refine ⟨?_, ?_, ?_⟩
      · intro e he
        rw [hres] at he
        simp at he
      · intro o ho
        rw [hres] at ho
        simp only [Except.ok.injEq] at ho
        right
        refine ⟨stored0, rfl, rfl, ?_, ?_⟩
        · rw [hres, hsurv]
        · rw [← ho, hsurv]
      · intro orig stored hcr harti hne
        simp at hcr
  | some orig0 =>
      have hres : confirm_import gen pid rows mapping db
          (Except.ok stored0) (some orig0)
          = (Except.error ⟨409,
              "Database constraint error while inserting tasks: " ++ orig0⟩, db) := by
        simp [confirm_import, hst, hcf, serializability_scan_eq]
      refine ⟨?_, ?_, ?_⟩
      · intro e he
        rw [hres]
      · intro o ho
        rw [hres] at ho
        simp at ho
      · intro orig stored hcr harti hne
        simp only [Option.some.injEq] at hcr
        subst hcr
        rw [hres]
        exact ⟨rfl, rfl⟩

/-- Witness for C4: a one-row batch whose artifact write succeeds but whose
commit is rejected by the database yields the 409 constraint error and
leaves the (empty) store unchanged. -/
theorem confirm_atomic_commit_witness :
    (confirm_import (fun _ => "u") 7
      [(2, [("id", PyVal.str "T1"), ("task_name", PyVal.str "A"),
            ("file_name", PyVal.str "f")])]
      ⟨"Raw", ⟨.column "id" [], ⟨"task_name", []⟩, ⟨"file_name", []⟩⟩, []⟩
      ⟨[], []⟩ (.ok "stored.json") (some "UNIQUE constraint failed")).1 =
      Except.error ⟨409,
        "Database constraint error while inserting tasks: "
          ++ "UNIQUE constraint failed"⟩ ∧
    (confirm_import (fun _ => "u") 7
      [(2, [("id", PyVal.str "T1"), ("task_name", PyVal.str "A"),
            ("file_name", PyVal.str "f")])]
      ⟨"Raw", ⟨.column "id" [], ⟨"task_name", []⟩, ⟨"file_name", []⟩⟩, []⟩
      ⟨[], []⟩ (.ok "stored.json") (some "UNIQUE constraint failed")).2 =
      ⟨[], []⟩ :=
  (confirm_atomic_commit (fun _ => "u") 7
      [(2, [("id", PyVal.str "T1"), ("task_name", PyVal.str "A"),
            ("file_name", PyVal.str "f")])]
      ⟨"Raw", ⟨.column "id" [], ⟨"task_name", []⟩, ⟨"file_name", []⟩⟩, []⟩
      ⟨[], []⟩ (.ok "stored.json") (some "UNIQUE constraint failed")).2.2
    "UNIQUE constraint failed" "stored.json" rfl rfl
    (by
      rw [show confirm_surviving (fun _ => "u") 7
        [(2, [("id", PyVal.str "T1"), ("task_name", PyVal.str "A"),
              ("file_name", PyVal.str "f")])]
        ⟨"Raw", ⟨.column "id" [], ⟨"task_name", []⟩, ⟨"file_name", []⟩⟩, []⟩
        ⟨[], []⟩ = [(⟨2, "T1", "A", "f", []⟩, [])] from rfl]
      simp)
